import Mathlib

set_option autoImplicit false

/-!
Shallow embedding of the jerryscript compact-byte-code opcode model
(byte-code header) and of the lexer (js-lexer.c), with theorems checking
the specification's claims against the embedded code.
-/

namespace JerryCbc

/-- CBC_NO_FLAG from the byte-code header. -/
def CBC_NO_FLAG : Nat := 0x00

/-- CBC_HAS_LITERAL_ARG from the byte-code header. -/
def CBC_HAS_LITERAL_ARG : Nat := 0x01

/-- CBC_HAS_LITERAL_ARG2 from the byte-code header. -/
def CBC_HAS_LITERAL_ARG2 : Nat := 0x02

/-- CBC_HAS_BYTE_ARG from the byte-code header. -/
def CBC_HAS_BYTE_ARG : Nat := 0x04

/-- CBC_HAS_BRANCH_ARG from the byte-code header. -/
def CBC_HAS_BRANCH_ARG : Nat := 0x08

/-- CBC_FORWARD_BRANCH_ARG from the byte-code header. -/
def CBC_FORWARD_BRANCH_ARG : Nat := 0x10

/-- CBC_POP_STACK_BYTE_ARG from the byte-code header (shares 0x10). -/
def CBC_POP_STACK_BYTE_ARG : Nat := 0x10

/-- CBC_HAS_POP_STACK_BYTE_ARG = CBC_HAS_BYTE_ARG | CBC_POP_STACK_BYTE_ARG. -/
def CBC_HAS_POP_STACK_BYTE_ARG : Nat := CBC_HAS_BYTE_ARG ||| CBC_POP_STACK_BYTE_ARG

/-- CBC_PUSH_NUMBER_BYTE_RANGE_END from the byte-code header. -/
def CBC_PUSH_NUMBER_BYTE_RANGE_END : Nat := 256

/-- One opcode of the X-macro generated opcode tables: its mnemonic, its flag
byte, its stack effect, and - for the opcodes produced by the
CBC_FORWARD_BRANCH / CBC_BACKWARD_BRANCH expansions - the byte width of the
branch offset that the expansion assigns to the slot (the plain `name`,
`name_2`, `name_3` opcodes carry 1-, 2- and 3-byte offsets respectively,
per the comment above CBC_FORWARD_BRANCH).  Non-branch opcodes carry 0. -/
structure CbcOp where
  name : String
  flags : Nat
  stack : Int
  width : Nat
deriving DecidableEq, Repr

/-- CBC_OPCODE(name, flags, stack): a single opcode table entry. -/
def cbcOpcode (name : String) (flags : Nat) (stack : Int) : List CbcOp :=
  [⟨name, flags, stack, 0⟩]

/-- CBC_FORWARD_BRANCH(name, stack): three forward branch opcodes with
1-, 2- and 3-byte offsets. -/
def cbcForwardBranch (name : String) (stack : Int) : List CbcOp :=
  [⟨name, CBC_HAS_BRANCH_ARG ||| CBC_FORWARD_BRANCH_ARG, stack, 1⟩,
   ⟨name ++ "_2", CBC_HAS_BRANCH_ARG ||| CBC_FORWARD_BRANCH_ARG, stack, 2⟩,
   ⟨name ++ "_3", CBC_HAS_BRANCH_ARG ||| CBC_FORWARD_BRANCH_ARG, stack, 3⟩]

/-- CBC_BACKWARD_BRANCH(name, stack): three backward branch opcodes with
1-, 2- and 3-byte offsets. -/
def cbcBackwardBranch (name : String) (stack : Int) : List CbcOp :=
  [⟨name, CBC_HAS_BRANCH_ARG, stack, 1⟩,
   ⟨name ++ "_2", CBC_HAS_BRANCH_ARG, stack, 2⟩,
   ⟨name ++ "_3", CBC_HAS_BRANCH_ARG, stack, 3⟩]

/-- CBC_UNARY_OPERATION(name) from the byte-code header. -/
def cbcUnaryOperation (name : String) : List CbcOp :=
  cbcOpcode name CBC_NO_FLAG 0 ++
  cbcOpcode (name ++ "_LITERAL") CBC_HAS_LITERAL_ARG 1

/-- CBC_BINARY_OPERATION(name) from the byte-code header. -/
def cbcBinaryOperation (name : String) : List CbcOp :=
  cbcOpcode name CBC_NO_FLAG (-1) ++
  cbcOpcode (name ++ "_RIGHT_LITERAL") CBC_HAS_LITERAL_ARG 0 ++
  cbcOpcode (name ++ "_TWO_LITERALS") (CBC_HAS_LITERAL_ARG ||| CBC_HAS_LITERAL_ARG2) 1

/-- CBC_UNARY_LVALUE_OPERATION(name) from the byte-code header. -/
def cbcUnaryLvalueOperation (name : String) : List CbcOp :=
  cbcOpcode name CBC_NO_FLAG (-2) ++
  cbcOpcode (name ++ "_PUSH_RESULT") CBC_NO_FLAG (-1) ++
  cbcOpcode (name ++ "_BLOCK") CBC_NO_FLAG (-2) ++
  cbcOpcode (name ++ "_IDENT") CBC_HAS_LITERAL_ARG 0 ++
  cbcOpcode (name ++ "_IDENT_PUSH_RESULT") CBC_HAS_LITERAL_ARG 1 ++
  cbcOpcode (name ++ "_IDENT_BLOCK") CBC_HAS_LITERAL_ARG 0

/-- PARSER_WITH_CONTEXT_STACK_ALLOCATION from the byte-code header. -/
def PARSER_WITH_CONTEXT_STACK_ALLOCATION : Int := 1

/-- PARSER_FOR_IN_CONTEXT_STACK_ALLOCATION from the byte-code header. -/
def PARSER_FOR_IN_CONTEXT_STACK_ALLOCATION : Int := 3

/-- PARSER_SUPER_CLASS_CONTEXT_STACK_ALLOCATION from the byte-code header. -/
def PARSER_SUPER_CLASS_CONTEXT_STACK_ALLOCATION : Int := 1

/-- PARSER_TRY_CONTEXT_STACK_ALLOCATION from the byte-code header. -/
def PARSER_TRY_CONTEXT_STACK_ALLOCATION : Int := 3

/-- The CBC_OPCODE_LIST X-macro expansion, entry by entry in source order.
The ordinal position of an opcode in this list is its cbc_opcode_t value. -/
def cbcOpcodeList : List CbcOp :=
  cbcOpcode ("CBC_EXT_OPCODE") CBC_NO_FLAG 0 ++
  cbcForwardBranch ("CBC_JUMP_FORWARD") 0 ++
  cbcOpcode ("CBC_POP") CBC_NO_FLAG (-1) ++
  cbcBackwardBranch ("CBC_JUMP_BACKWARD") 0 ++
  cbcOpcode ("CBC_POP_BLOCK") CBC_NO_FLAG (-1) ++
  cbcForwardBranch ("CBC_BRANCH_IF_TRUE_FORWARD") (-1) ++
  cbcOpcode ("CBC_THROW") CBC_NO_FLAG (-1) ++
  cbcBackwardBranch ("CBC_BRANCH_IF_TRUE_BACKWARD") (-1) ++
  cbcOpcode ("CBC_CONTEXT_END") CBC_NO_FLAG 0 ++
  cbcForwardBranch ("CBC_BRANCH_IF_FALSE_FORWARD") (-1) ++
  cbcOpcode ("CBC_CREATE_OBJECT") CBC_NO_FLAG 1 ++
  cbcBackwardBranch ("CBC_BRANCH_IF_FALSE_BACKWARD") (-1) ++
  cbcOpcode ("CBC_SET_PROPERTY") CBC_HAS_LITERAL_ARG (-1) ++
  cbcForwardBranch ("CBC_JUMP_FORWARD_EXIT_CONTEXT") 0 ++
  cbcOpcode ("CBC_CREATE_ARRAY") CBC_NO_FLAG 1 ++
  cbcForwardBranch ("CBC_BRANCH_IF_LOGICAL_TRUE") (-1) ++
  cbcOpcode ("CBC_ARRAY_APPEND") CBC_HAS_POP_STACK_BYTE_ARG 0 ++
  cbcForwardBranch ("CBC_BRANCH_IF_LOGICAL_FALSE") (-1) ++
  cbcOpcode ("CBC_PUSH_ELISION") CBC_NO_FLAG 1 ++
  cbcForwardBranch ("CBC_BRANCH_IF_STRICT_EQUAL") (-1) ++
  cbcOpcode ("CBC_PUSH_LITERAL") CBC_HAS_LITERAL_ARG 1 ++
  cbcOpcode ("CBC_PUSH_TWO_LITERALS") (CBC_HAS_LITERAL_ARG ||| CBC_HAS_LITERAL_ARG2) 2 ++
  cbcOpcode ("CBC_PUSH_THREE_LITERALS") CBC_HAS_LITERAL_ARG2 3 ++
  cbcOpcode ("CBC_PUSH_UNDEFINED") CBC_NO_FLAG 1 ++
  cbcOpcode ("CBC_PUSH_TRUE") CBC_NO_FLAG 1 ++
  cbcOpcode ("CBC_PUSH_FALSE") CBC_NO_FLAG 1 ++
  cbcOpcode ("CBC_PUSH_NULL") CBC_NO_FLAG 1 ++
  cbcOpcode ("CBC_PUSH_THIS") CBC_NO_FLAG 1 ++
  cbcOpcode ("CBC_PUSH_THIS_LITERAL") CBC_HAS_LITERAL_ARG 2 ++
  cbcOpcode ("CBC_PUSH_NUMBER_0") CBC_NO_FLAG 1 ++
  cbcOpcode ("CBC_PUSH_NUMBER_POS_BYTE") CBC_HAS_BYTE_ARG 1 ++
  cbcOpcode ("CBC_PUSH_NUMBER_NEG_BYTE") CBC_HAS_BYTE_ARG 1 ++
  cbcOpcode ("CBC_PUSH_PROP") CBC_NO_FLAG (-1) ++
  cbcOpcode ("CBC_PUSH_PROP_LITERAL") CBC_HAS_LITERAL_ARG 0 ++
  cbcOpcode ("CBC_PUSH_PROP_LITERAL_LITERAL") (CBC_HAS_LITERAL_ARG ||| CBC_HAS_LITERAL_ARG2) 1 ++
  cbcOpcode ("CBC_PUSH_PROP_THIS_LITERAL") CBC_HAS_LITERAL_ARG 1 ++
  cbcOpcode ("CBC_PUSH_IDENT_REFERENCE") CBC_HAS_LITERAL_ARG 3 ++
  cbcOpcode ("CBC_PUSH_PROP_REFERENCE") CBC_NO_FLAG 1 ++
  cbcOpcode ("CBC_PUSH_PROP_LITERAL_REFERENCE") CBC_HAS_LITERAL_ARG 2 ++
  cbcOpcode ("CBC_PUSH_PROP_LITERAL_LITERAL_REFERENCE") (CBC_HAS_LITERAL_ARG ||| CBC_HAS_LITERAL_ARG2) 3 ++
  cbcOpcode ("CBC_PUSH_PROP_THIS_LITERAL_REFERENCE") CBC_HAS_LITERAL_ARG 3 ++
  cbcOpcode ("CBC_NEW") CBC_HAS_POP_STACK_BYTE_ARG 0 ++
  cbcOpcode ("CBC_NEW0") CBC_NO_FLAG 0 ++
  cbcOpcode ("CBC_NEW1") CBC_NO_FLAG (-1) ++
  cbcOpcode ("CBC_EVAL") CBC_NO_FLAG 0 ++
  cbcOpcode ("CBC_DEFINE_VARS") CBC_HAS_LITERAL_ARG 0 ++
  cbcOpcode ("CBC_INITIALIZE_VAR") (CBC_HAS_LITERAL_ARG ||| CBC_HAS_LITERAL_ARG2) 0 ++
  cbcOpcode ("CBC_INITIALIZE_VARS") (CBC_HAS_LITERAL_ARG ||| CBC_HAS_LITERAL_ARG2) 0 ++
  cbcOpcode ("CBC_RETURN") CBC_NO_FLAG (-1) ++
  cbcOpcode ("CBC_RETURN_WITH_BLOCK") CBC_NO_FLAG 0 ++
  cbcOpcode ("CBC_RETURN_WITH_LITERAL") CBC_HAS_LITERAL_ARG 0 ++
  cbcOpcode ("CBC_SET_LITERAL_PROPERTY") (CBC_HAS_LITERAL_ARG ||| CBC_HAS_LITERAL_ARG2) 0 ++
  cbcUnaryOperation ("CBC_PLUS") ++
  cbcUnaryOperation ("CBC_NEGATE") ++
  cbcUnaryOperation ("CBC_LOGICAL_NOT") ++
  cbcUnaryOperation ("CBC_BIT_NOT") ++
  cbcUnaryOperation ("CBC_VOID") ++
  cbcOpcode ("CBC_TYPEOF") CBC_NO_FLAG 0 ++
  cbcOpcode ("CBC_TYPEOF_IDENT") CBC_HAS_LITERAL_ARG 1 ++
  cbcBinaryOperation ("CBC_BIT_OR") ++
  cbcBinaryOperation ("CBC_BIT_XOR") ++
  cbcBinaryOperation ("CBC_BIT_AND") ++
  cbcBinaryOperation ("CBC_EQUAL") ++
  cbcBinaryOperation ("CBC_NOT_EQUAL") ++
  cbcBinaryOperation ("CBC_STRICT_EQUAL") ++
  cbcBinaryOperation ("CBC_STRICT_NOT_EQUAL") ++
  cbcBinaryOperation ("CBC_LESS") ++
  cbcBinaryOperation ("CBC_GREATER") ++
  cbcBinaryOperation ("CBC_LESS_EQUAL") ++
  cbcBinaryOperation ("CBC_GREATER_EQUAL") ++
  cbcBinaryOperation ("CBC_IN") ++
  cbcBinaryOperation ("CBC_INSTANCEOF") ++
  cbcBinaryOperation ("CBC_LEFT_SHIFT") ++
  cbcBinaryOperation ("CBC_RIGHT_SHIFT") ++
  cbcBinaryOperation ("CBC_UNS_RIGHT_SHIFT") ++
  cbcBinaryOperation ("CBC_ADD") ++
  cbcBinaryOperation ("CBC_SUBTRACT") ++
  cbcBinaryOperation ("CBC_MULTIPLY") ++
  cbcBinaryOperation ("CBC_DIVIDE") ++
  cbcBinaryOperation ("CBC_MODULO") ++
  cbcOpcode ("CBC_DELETE_PUSH_RESULT") CBC_NO_FLAG (-1) ++
  cbcOpcode ("CBC_DELETE_IDENT_PUSH_RESULT") CBC_HAS_LITERAL_ARG 1 ++
  cbcUnaryLvalueOperation ("CBC_PRE_INCR") ++
  cbcUnaryLvalueOperation ("CBC_PRE_DECR") ++
  cbcUnaryLvalueOperation ("CBC_POST_INCR") ++
  cbcUnaryLvalueOperation ("CBC_POST_DECR") ++
  cbcOpcode ("CBC_CALL") CBC_HAS_POP_STACK_BYTE_ARG (-1) ++
  cbcOpcode ("CBC_CALL_PUSH_RESULT") CBC_HAS_POP_STACK_BYTE_ARG 0 ++
  cbcOpcode ("CBC_CALL_BLOCK") CBC_HAS_POP_STACK_BYTE_ARG (-1) ++
  cbcOpcode ("CBC_CALL_PROP") CBC_HAS_POP_STACK_BYTE_ARG (-3) ++
  cbcOpcode ("CBC_CALL_PROP_PUSH_RESULT") CBC_HAS_POP_STACK_BYTE_ARG (-2) ++
  cbcOpcode ("CBC_CALL_PROP_BLOCK") CBC_HAS_POP_STACK_BYTE_ARG (-3) ++
  cbcOpcode ("CBC_CALL0") CBC_NO_FLAG (-1) ++
  cbcOpcode ("CBC_CALL0_PUSH_RESULT") CBC_NO_FLAG 0 ++
  cbcOpcode ("CBC_CALL0_BLOCK") CBC_NO_FLAG (-1) ++
  cbcOpcode ("CBC_CALL0_PROP") CBC_NO_FLAG (-3) ++
  cbcOpcode ("CBC_CALL0_PROP_PUSH_RESULT") CBC_NO_FLAG (-2) ++
  cbcOpcode ("CBC_CALL0_PROP_BLOCK") CBC_NO_FLAG (-3) ++
  cbcOpcode ("CBC_CALL1") CBC_NO_FLAG (-2) ++
  cbcOpcode ("CBC_CALL1_PUSH_RESULT") CBC_NO_FLAG (-1) ++
  cbcOpcode ("CBC_CALL1_BLOCK") CBC_NO_FLAG (-2) ++
  cbcOpcode ("CBC_CALL1_PROP") CBC_NO_FLAG (-4) ++
  cbcOpcode ("CBC_CALL1_PROP_PUSH_RESULT") CBC_NO_FLAG (-3) ++
  cbcOpcode ("CBC_CALL1_PROP_BLOCK") CBC_NO_FLAG (-4) ++
  cbcOpcode ("CBC_CALL2") CBC_NO_FLAG (-3) ++
  cbcOpcode ("CBC_CALL2_PUSH_RESULT") CBC_NO_FLAG (-2) ++
  cbcOpcode ("CBC_CALL2_BLOCK") CBC_NO_FLAG (-3) ++
  cbcOpcode ("CBC_CALL2_PROP") CBC_NO_FLAG (-4) ++
  cbcOpcode ("CBC_CALL2_PROP_PUSH_RESULT") CBC_NO_FLAG (-3) ++
  cbcOpcode ("CBC_CALL2_PROP_BLOCK") CBC_NO_FLAG (-4) ++
  cbcOpcode ("CBC_ASSIGN") CBC_NO_FLAG (-3) ++
  cbcOpcode ("CBC_ASSIGN_PUSH_RESULT") CBC_NO_FLAG (-2) ++
  cbcOpcode ("CBC_ASSIGN_BLOCK") CBC_NO_FLAG (-3) ++
  cbcOpcode ("CBC_ASSIGN_SET_IDENT") CBC_HAS_LITERAL_ARG (-1) ++
  cbcOpcode ("CBC_ASSIGN_SET_IDENT_PUSH_RESULT") CBC_HAS_LITERAL_ARG 0 ++
  cbcOpcode ("CBC_ASSIGN_SET_IDENT_BLOCK") CBC_HAS_LITERAL_ARG (-1) ++
  cbcOpcode ("CBC_ASSIGN_LITERAL_SET_IDENT") (CBC_HAS_LITERAL_ARG ||| CBC_HAS_LITERAL_ARG2) 0 ++
  cbcOpcode ("CBC_ASSIGN_LITERAL_SET_IDENT_PUSH_RESULT") (CBC_HAS_LITERAL_ARG ||| CBC_HAS_LITERAL_ARG2) 1 ++
  cbcOpcode ("CBC_ASSIGN_LITERAL_SET_IDENT_BLOCK") (CBC_HAS_LITERAL_ARG ||| CBC_HAS_LITERAL_ARG2) 0 ++
  cbcOpcode ("CBC_ASSIGN_PROP_LITERAL") CBC_HAS_LITERAL_ARG (-2) ++
  cbcOpcode ("CBC_ASSIGN_PROP_LITERAL_PUSH_RESULT") CBC_HAS_LITERAL_ARG (-1) ++
  cbcOpcode ("CBC_ASSIGN_PROP_LITERAL_BLOCK") CBC_HAS_LITERAL_ARG (-2) ++
  cbcOpcode ("CBC_ASSIGN_PROP_THIS_LITERAL") CBC_HAS_LITERAL_ARG (-1) ++
  cbcOpcode ("CBC_ASSIGN_PROP_THIS_LITERAL_PUSH_RESULT") CBC_HAS_LITERAL_ARG 0 ++
  cbcOpcode ("CBC_ASSIGN_PROP_THIS_LITERAL_BLOCK") CBC_HAS_LITERAL_ARG (-1) ++
  cbcOpcode ("CBC_END") CBC_NO_FLAG 0

/-- The CBC_EXT_OPCODE_LIST X-macro expansion, entry by entry in source
order.  The ordinal position of an opcode in this list is its
cbc_ext_opcode_t value. -/
def cbcExtOpcodeList : List CbcOp :=
  cbcOpcode ("CBC_EXT_NOP") CBC_NO_FLAG 0 ++
  cbcForwardBranch ("CBC_EXT_WITH_CREATE_CONTEXT") (-1 + PARSER_WITH_CONTEXT_STACK_ALLOCATION) ++
  cbcOpcode ("CBC_EXT_FOR_IN_GET_NEXT") CBC_NO_FLAG 1 ++
  cbcForwardBranch ("CBC_EXT_FOR_IN_CREATE_CONTEXT") (-1 + PARSER_FOR_IN_CONTEXT_STACK_ALLOCATION) ++
  cbcOpcode ("CBC_EXT_SET_GETTER") (CBC_HAS_LITERAL_ARG ||| CBC_HAS_LITERAL_ARG2) 0 ++
  cbcBackwardBranch ("CBC_EXT_BRANCH_IF_FOR_IN_HAS_NEXT") 0 ++
  cbcOpcode ("CBC_EXT_SET_SETTER") (CBC_HAS_LITERAL_ARG ||| CBC_HAS_LITERAL_ARG2) 0 ++
  cbcForwardBranch ("CBC_EXT_TRY_CREATE_CONTEXT") PARSER_TRY_CONTEXT_STACK_ALLOCATION ++
  cbcOpcode ("CBC_EXT_THROW_REFERENCE_ERROR") CBC_NO_FLAG 1 ++
  cbcForwardBranch ("CBC_EXT_CATCH") 1 ++
  cbcOpcode ("CBC_EXT_PUSH_UNDEFINED_BASE") CBC_NO_FLAG 1 ++
  cbcForwardBranch ("CBC_EXT_FINALLY") 0 ++
  cbcOpcode ("CBC_EXT_CLASS_EXPR_CONTEXT_END") CBC_NO_FLAG 0 ++
  cbcForwardBranch ("CBC_EXT_SUPER_CLASS_CREATE_CONTEXT") (-1 + PARSER_SUPER_CLASS_CONTEXT_STACK_ALLOCATION) ++
  cbcOpcode ("CBC_EXT_DEBUGGER") CBC_NO_FLAG 0 ++
  cbcOpcode ("CBC_EXT_PUSH_NAMED_FUNC_EXPRESSION") (CBC_HAS_LITERAL_ARG ||| CBC_HAS_LITERAL_ARG2) 1 ++
  cbcOpcode ("CBC_EXT_PUSH_LITERAL_PUSH_NUMBER_0") CBC_HAS_LITERAL_ARG 2 ++
  cbcOpcode ("CBC_EXT_PUSH_LITERAL_PUSH_NUMBER_POS_BYTE") (CBC_HAS_LITERAL_ARG ||| CBC_HAS_BYTE_ARG) 2 ++
  cbcOpcode ("CBC_EXT_PUSH_LITERAL_PUSH_NUMBER_NEG_BYTE") (CBC_HAS_LITERAL_ARG ||| CBC_HAS_BYTE_ARG) 2 ++
  cbcOpcode ("CBC_EXT_SET_COMPUTED_PROPERTY") CBC_NO_FLAG (-2) ++
  cbcOpcode ("CBC_EXT_SET_COMPUTED_PROPERTY_LITERAL") CBC_HAS_LITERAL_ARG (-1) ++
  cbcOpcode ("CBC_EXT_SET_COMPUTED_GETTER") CBC_HAS_LITERAL_ARG (-1) ++
  cbcOpcode ("CBC_EXT_SET_COMPUTED_SETTER") CBC_HAS_LITERAL_ARG (-1) ++
  cbcOpcode ("CBC_EXT_SET_STATIC_PROPERTY_LITERAL") (CBC_HAS_LITERAL_ARG ||| CBC_HAS_LITERAL_ARG2) 0 ++
  cbcOpcode ("CBC_EXT_SET_STATIC_COMPUTED_PROPERTY_LITERAL") CBC_HAS_LITERAL_ARG (-1) ++
  cbcOpcode ("CBC_EXT_SET_STATIC_GETTER") (CBC_HAS_LITERAL_ARG ||| CBC_HAS_LITERAL_ARG2) 0 ++
  cbcOpcode ("CBC_EXT_SET_STATIC_SETTER") (CBC_HAS_LITERAL_ARG ||| CBC_HAS_LITERAL_ARG2) 0 ++
  cbcOpcode ("CBC_EXT_SET_STATIC_COMPUTED_GETTER") CBC_HAS_LITERAL_ARG (-1) ++
  cbcOpcode ("CBC_EXT_SET_STATIC_COMPUTED_SETTER") CBC_HAS_LITERAL_ARG (-1) ++
  cbcOpcode ("CBC_EXT_RESOLVE_BASE") CBC_NO_FLAG 0 ++
  cbcOpcode ("CBC_EXT_INHERIT_AND_SET_CONSTRUCTOR") CBC_NO_FLAG 0 ++
  cbcOpcode ("CBC_EXT_PUSH_CLASS_CONSTRUCTOR") CBC_NO_FLAG 1 ++
  cbcOpcode ("CBC_EXT_IMPLICIT_CONSTRUCTOR_CALL") CBC_NO_FLAG 0 ++
  cbcOpcode ("CBC_EXT_SET_CLASS_LITERAL") CBC_HAS_LITERAL_ARG 0 ++
  cbcOpcode ("CBC_EXT_CLASS_EVAL") CBC_HAS_BYTE_ARG 0 ++
  cbcOpcode ("CBC_EXT_SUPER_CALL") CBC_HAS_POP_STACK_BYTE_ARG (-1) ++
  cbcOpcode ("CBC_EXT_SUPER_CALL_PUSH_RESULT") CBC_HAS_POP_STACK_BYTE_ARG 0 ++
  cbcOpcode ("CBC_EXT_SUPER_CALL_BLOCK") CBC_HAS_POP_STACK_BYTE_ARG (-1) ++
  cbcOpcode ("CBC_EXT_PUSH_CONSTRUCTOR_SUPER") CBC_NO_FLAG 1 ++
  cbcOpcode ("CBC_EXT_PUSH_CONSTRUCTOR_SUPER_PROP") CBC_NO_FLAG 1 ++
  cbcOpcode ("CBC_EXT_PUSH_SUPER") CBC_NO_FLAG 1 ++
  cbcOpcode ("CBC_EXT_PUSH_STATIC_SUPER") CBC_NO_FLAG 1 ++
  cbcOpcode ("CBC_EXT_PUSH_CONSTRUCTOR_THIS") CBC_NO_FLAG 1 ++
  cbcOpcode ("CBC_EXT_SUPER_PROP_CALL") CBC_NO_FLAG 0 ++
  cbcOpcode ("CBC_EXT_SUPER_PROP_ASSIGN") CBC_NO_FLAG 0 ++
  cbcOpcode ("CBC_EXT_CONSTRUCTOR_RETURN") CBC_NO_FLAG (-1) ++
  cbcOpcode ("CBC_EXT_END") CBC_NO_FLAG 0

/-- The opcode table entry at ordinal i (out-of-range reads a dummy). -/
def opAt (l : List CbcOp) (i : Nat) : CbcOp := l.getD i ⟨"", 0, 0, 0⟩

/-- An opcode carries a branch argument (produced by CBC_FORWARD_BRANCH or
CBC_BACKWARD_BRANCH; CBC_HAS_BRANCH_ARG is set by no other expansion). -/
def isBranchOp (op : CbcOp) : Prop := op.flags &&& CBC_HAS_BRANCH_ARG ≠ 0

/-- An opcode carries CBC_FORWARD_BRANCH_ARG together with a branch
argument, i.e. was produced by the CBC_FORWARD_BRANCH expansion. -/
def isForwardBranchOp (op : CbcOp) : Prop :=
  op.flags &&& CBC_FORWARD_BRANCH_ARG ≠ 0

instance (op : CbcOp) : Decidable (isBranchOp op) := by
  unfold isBranchOp; infer_instance

instance (op : CbcOp) : Decidable (isForwardBranchOp op) := by
  unfold isForwardBranchOp; infer_instance

/-- The width half of the bit-packing invariant at one ordinal: if the
opcode at ordinal i is a branch, then `i &&& 0x3` is its branch offset
width, which lies in 1..3. -/
def widthSlotOk (l : List CbcOp) (i : Nat) : Prop :=
  isBranchOp (opAt l i) →
    i &&& 0x3 = (opAt l i).width ∧ 1 ≤ (opAt l i).width ∧ (opAt l i).width ≤ 3

instance (l : List CbcOp) (i : Nat) : Decidable (widthSlotOk l i) := by
  unfold widthSlotOk; infer_instance

/-- The direction half of the bit-packing invariant at one ordinal: if the
opcode at ordinal i is a branch, then bit 0x4 of i is clear exactly for
forward branches, and a forward branch's matching backward opcode (same
offset width) sits 4 positions later, in the same group of 8. -/
def directionSlotOk (l : List CbcOp) (i : Nat) : Prop :=
  isBranchOp (opAt l i) →
    ((i &&& 0x4 = 0) ↔ isForwardBranchOp (opAt l i)) ∧
    (isForwardBranchOp (opAt l i) →
      i + 4 < l.length ∧
      isBranchOp (opAt l (i + 4)) ∧
      ¬ isForwardBranchOp (opAt l (i + 4)) ∧
      (opAt l (i + 4)).width = (opAt l i).width ∧
      (i + 4) / 8 = i / 8)

instance (l : List CbcOp) (i : Nat) : Decidable (directionSlotOk l i) := by
  unfold directionSlotOk; infer_instance

/-- Claim C1 as stated, for one opcode list: every branch opcode's ordinal
has low bits 0x3 equal to its offset width (which is 1, 2 or 3), bit 0x4
clear exactly for forward branches, and every forward branch's matching
backward opcode 4 positions later in the same group of 8. -/
def branchPackingClaim (l : List CbcOp) : Prop :=
  ∀ i, i < l.length → widthSlotOk l i ∧ directionSlotOk l i

instance (l : List CbcOp) : Decidable (branchPackingClaim l) := by
  unfold branchPackingClaim; infer_instance

/-- Claim C1 as stated, over both opcode lists. -/
def claimC1 : Prop :=
  branchPackingClaim cbcOpcodeList ∧ branchPackingClaim cbcExtOpcodeList

instance : Decidable claimC1 := by
  unfold claimC1; infer_instance

/-- The amended branch-packing property that the opcode tables actually
satisfy: the width encoding `ordinal &&& 0x3` holds for every branch opcode
of both lists, while the direction bit `ordinal &&& 0x4` and the
forward/backward pairing four slots apart hold exactly for the branch
opcodes of CBC_OPCODE_LIST with ordinals below 24 (the three paired
jump / branch-if-true / branch-if-false groups); the remaining branch
groups carry their direction only in CBC_FORWARD_BRANCH_ARG. -/
def amendedBranchPacking : Prop :=
  (∀ i, i < cbcOpcodeList.length → widthSlotOk cbcOpcodeList i) ∧
  (∀ i, i < cbcExtOpcodeList.length → widthSlotOk cbcExtOpcodeList i) ∧
  (∀ i, i < 24 → directionSlotOk cbcOpcodeList i)

instance : Decidable amendedBranchPacking := by
  unfold amendedBranchPacking; infer_instance

end JerryCbc

namespace JerryLexer

open JerryCbc (CBC_PUSH_NUMBER_BYTE_RANGE_END)

/-- Modulus of 32-bit unsigned arithmetic; parser_line_counter_t is a 32-bit
counter (js-parser-internal.h is not under src; the spec describes plain
unsigned line/column counters). -/
def M32 : Nat := 4294967296

/-- Modulus of 64-bit unsigned arithmetic (size_t). -/
def M64 : Nat := 18446744073709551616

/-- Wrapping addition on 32-bit counters (PARSER_PLUS_EQUAL_LC and the
increments of parser_line_counter_t values). -/
def add32 (a b : Nat) : Nat := (a + b) % M32

/-- Wrapping subtraction on 32-bit counters. -/
def sub32 (a b : Nat) : Nat := (a + M32 - b % M32) % M32

/-- Wrapping addition on size_t values. -/
def add64 (a b : Nat) : Nat := (a + b) % M64

/-- Wrapping subtraction on size_t values. -/
def sub64 (a b : Nat) : Nat := (a + M64 - b % M64) % M64

/-- The byte of the source buffer at index i (reads at or past the end of
the buffer yield 0; every such read is either guarded in the embedded code
exactly where the C code checks source_end_p, or reified as an explicit
out-of-bounds result). -/
def byteAt (src : List Nat) (i : Nat) : Nat := src.getD i 0

/-- IS_UTF8_INTERMEDIATE_OCTET(byte) from js-lexer.c: (byte & 0xc0) == 0x80. -/
def isUtf8Intermediate (b : Nat) : Prop := b &&& 0xc0 = 0x80

instance (b : Nat) : Decidable (isUtf8Intermediate b) := by
  unfold isUtf8Intermediate; infer_instance

/-- Modelled from the spec: LEXER_NEWLINE_LS_PS_BYTE_23(source) of the
missing js-parser-internal.h recognizes the second and third bytes of the
3-byte UTF-8 encodings of U+2028 / U+2029 (0xe2 0x80 0xa8 / 0xa9). -/
def lsPsByte23 (b1 b2 : Nat) : Prop := b1 = 0x80 ∧ b2 ||| 0x1 = 0xa9

instance (b1 b2 : Nat) : Decidable (lsPsByte23 b1 b2) := by
  unfold lsPsByte23; infer_instance

/-- Modelled from the spec: PARSER_MAXIMUM_IDENT_LENGTH of the missing
js-parser-internal.h (the fixed maximum identifier byte length cap). -/
def PARSER_MAXIMUM_IDENT_LENGTH : Nat := 255

/-- Modelled from the spec: PARSER_MAXIMUM_STRING_LENGTH of the missing
js-parser-internal.h (the fixed maximum string byte length cap). -/
def PARSER_MAXIMUM_STRING_LENGTH : Nat := 65535

/-- Modelled from the spec: PARSER_MAXIMUM_NUMBER_OF_LITERALS of the
missing js-parser-internal.h; the spec requires failure past the maximum
representable index count, matching CBC_MAXIMUM_FULL_VALUE = 32767 of the
byte-code header. -/
def PARSER_MAXIMUM_NUMBER_OF_LITERALS : Nat := 32767

/-- Modelled from the spec: LEXER_FLAG_SOURCE_PTR status-flag bit of the
missing js-parser-internal.h ("source-pointer-backed" literal entries);
the concrete bit value is immaterial, only its identity is used. -/
def LEXER_FLAG_SOURCE_PTR : Nat := 0x01

/-- Modelled from the spec: LEXER_FLAG_UNUSED_IDENT status-flag bit of the
missing js-parser-internal.h (the "unused" flag cleared on interning hits). -/
def LEXER_FLAG_UNUSED_IDENT : Nat := 0x02

/-- Errors raised through parser_raise_error in the embedded lexer code. -/
inductive ParserError
| unterminatedString
| invalidEscapeSequence
| octalEscapeNotAllowed
| newlineNotAllowed
| stringTooLong
| unterminatedMultilineComment
| invalidUnicodeEscapeSequence
| invalidIdentifierStart
| invalidIdentifierPart
| identifierTooLong
| strictIdentNotAllowed
| literalLimitReached
| outOfMemory
| identifierExpected
deriving DecidableEq, Repr

/-- Token types produced by the embedded identifier / string scanners; the
keyword constructor tags the keyword by its spelling instead of by the
numeric value of the missing lexer_token_type_t enumeration. -/
inductive TokenType
| literal
| templateLiteral
| propertyGetter
| propertySetter
| keyword (name : String)
deriving DecidableEq, Repr

/-- align_column_to_tab from js-lexer.c:
((column + (8u - 1u)) & ~0x7u) + 1u in 32-bit arithmetic. -/
def alignColumnToTab (column : Nat) : Nat :=
  ((((column + 7) % M32) &&& 0xFFFFFFF8) + 1) % M32

/-- Modelled from the spec: util_get_utf8_length of the missing
js-parser-util.c; the byte length of the standard UTF-8 encoding of a
16-bit character (1, 2 or 3). -/
def utf8Length (c : Nat) : Nat :=
  if c < 0x80 then 1 else if c < 0x800 then 2 else 3

/-- Modelled from the spec: util_to_utf8_bytes of the missing
js-parser-util.c; the standard UTF-8 encoding of a 16-bit character. -/
def utf8Bytes (c : Nat) : List Nat :=
  if c < 0x80 then [c]
  else if c < 0x800 then [0xc0 ||| (c >>> 6), 0x80 ||| (c &&& 0x3f)]
  else [0xe0 ||| (c >>> 12), 0x80 ||| ((c >>> 6) &&& 0x3f), 0x80 ||| (c &&& 0x3f)]

/-- The value of one hexadecimal digit byte, or none for a non-hex byte
(lexer_hex_to_character raises PARSER_ERR_INVALID_ESCAPE_SEQUENCE then). -/
def hexDigitVal (b : Nat) : Option Nat :=
  if 48 ≤ b ∧ b ≤ 57 then some (b - 48)
  else if 97 ≤ b ||| 0x20 ∧ b ||| 0x20 ≤ 102 then some ((b ||| 0x20) - 87)
  else none

/-- lexer_hex_to_character from js-lexer.c: reads `len` hex digit bytes at
index i, accumulating result = result * 16 + digit; none models the raised
PARSER_ERR_INVALID_ESCAPE_SEQUENCE. -/
def lexerHexToCharacter (src : List Nat) (i : Nat) : Nat → Nat → Option Nat
  | 0, acc => some acc
  | n + 1, acc =>
    match hexDigitVal (byteAt src i) with
    | none => none
    | some d => lexerHexToCharacter src (i + 1) n (acc * 16 + d)

/-- The index just past a maximal run of UTF-8 intermediate octets starting
at i (the `while IS_UTF8_INTERMEDIATE_OCTET` skips of the scanners). -/
def skipIntermediateGo (src : List Nat) : Nat → Nat → Nat
  | 0, i => i
  | f + 1, i =>
    if i < src.length ∧ isUtf8Intermediate (byteAt src i) then
      skipIntermediateGo src f (i + 1)
    else i

/-- The index just past the UTF-8 intermediate octets starting at i. -/
def skipIntermediate (src : List Nat) (i : Nat) : Nat :=
  skipIntermediateGo src (src.length + 1) i

/-- The three modes of lexer_skip_spaces. -/
inductive SkipMode
| spaces
| singleLineComment
| multiLineComment
deriving DecidableEq, Repr

/-- The cursor state returned by the whitespace/comment skipper. -/
structure SkipState where
  i : Nat
  line : Nat
  col : Nat
  wasNewline : Bool
deriving DecidableEq, Repr

/-- Result of lexer_skip_spaces. -/
inductive SkipResult
| done (st : SkipState)
| errUnterminatedComment
| fuelOut
deriving DecidableEq, Repr

/-- The main loop of lexer_skip_spaces from js-lexer.c, byte case by byte
case in source order; wasNl models the LEXER_WAS_NEWLINE token flag. -/
def lexerSkipSpacesLoop (src : List Nat) : Nat → SkipMode → Nat → Nat → Nat → Bool → SkipResult
  | 0, _, _, _, _, _ => .fuelOut
  | fuel + 1, mode, i, line, col, wasNl =>
    if i ≥ src.length then
      if mode = .multiLineComment then .errUnterminatedComment
      else .done ⟨i, line, col, wasNl⟩
    else
      let b := byteAt src i
      if b = 13 ∨ b = 10 then
        -- CR (folding a following LF) or LF, then the shared
        -- newline-and-consume tail of the fallthrough cases
        let i2 := if b = 13 ∧ i + 1 < src.length ∧ byteAt src (i + 1) = 10 then i + 1 else i
        let mode2 := if mode = .singleLineComment then SkipMode.spaces else mode
        lexerSkipSpacesLoop src fuel mode2 (i2 + 1) (add32 line 1) 1 true
      else if b = 0x0b ∨ b = 0x0c ∨ b = 0x20 then
        lexerSkipSpacesLoop src fuel mode (i + 1) line (add32 col 1) wasNl
      else if b = 9 then
        lexerSkipSpacesLoop src fuel mode (i + 1) line (alignColumnToTab col) wasNl
      else if b = 47 then
        if mode = .spaces ∧ i + 1 < src.length ∧ byteAt src (i + 1) = 47 then
          lexerSkipSpacesLoop src fuel .singleLineComment (i + 2) line (add32 col 2) wasNl
        else if mode = .spaces ∧ i + 1 < src.length ∧ byteAt src (i + 1) = 42 then
          lexerSkipSpacesLoop src fuel .multiLineComment (i + 2) line (add32 col 2) wasNl
        else if mode = .spaces then .done ⟨i, line, col, wasNl⟩
        else lexerSkipSpacesLoop src fuel mode (i + 1) line
          (if i + 1 < src.length ∧ isUtf8Intermediate (byteAt src (i + 1)) then add32 col 1 else col) wasNl
      else if b = 42 then
        if mode = .multiLineComment ∧ i + 1 < src.length ∧ byteAt src (i + 1) = 47 then
          lexerSkipSpacesLoop src fuel .spaces (i + 2) line (add32 col 2) wasNl
        else if mode = .spaces then .done ⟨i, line, col, wasNl⟩
        else lexerSkipSpacesLoop src fuel mode (i + 1) line
          (if i + 1 < src.length ∧ isUtf8Intermediate (byteAt src (i + 1)) then add32 col 1 else col) wasNl
      else if b = 0xc2 then
        if i + 1 < src.length ∧ byteAt src (i + 1) = 0xa0 then
          lexerSkipSpacesLoop src fuel mode (i + 2) line (add32 col 1) wasNl
        else if mode = .spaces then .done ⟨i, line, col, wasNl⟩
        else lexerSkipSpacesLoop src fuel mode (i + 1) line
          (if i + 1 < src.length ∧ isUtf8Intermediate (byteAt src (i + 1)) then add32 col 1 else col) wasNl
      else if b = 0xe2 then
        if lsPsByte23 (byteAt src (i + 1)) (byteAt src (i + 2)) then
          let mode2 := if mode = .singleLineComment then SkipMode.spaces else mode
          lexerSkipSpacesLoop src fuel mode2 (i + 3) (add32 line 1) 1 true
        else if mode = .spaces then .done ⟨i, line, col, wasNl⟩
        else lexerSkipSpacesLoop src fuel mode (i + 1) line
          (if i + 1 < src.length ∧ isUtf8Intermediate (byteAt src (i + 1)) then add32 col 1 else col) wasNl
      else if b = 0xef then
        if i + 2 < src.length ∧ byteAt src (i + 1) = 0xbb ∧ byteAt src (i + 2) = 0xbf then
          lexerSkipSpacesLoop src fuel mode (i + 3) line (add32 col 1) wasNl
        else if mode = .spaces then .done ⟨i, line, col, wasNl⟩
        else lexerSkipSpacesLoop src fuel mode (i + 1) line
          (if i + 1 < src.length ∧ isUtf8Intermediate (byteAt src (i + 1)) then add32 col 1 else col) wasNl
      else
        if mode = .spaces then .done ⟨i, line, col, wasNl⟩
        else lexerSkipSpacesLoop src fuel mode (i + 1) line
          (if i + 1 < src.length ∧ isUtf8Intermediate (byteAt src (i + 1)) then add32 col 1 else col) wasNl

/-- The LEXER_WAS_NEWLINE / LEXER_NO_SKIP_SPACES token flags. -/
structure LexerFlags where
  wasNewline : Bool
  noSkipSpaces : Bool
deriving DecidableEq, Repr

/-- lexer_skip_spaces from js-lexer.c: the one-shot LEXER_NO_SKIP_SPACES
flag suppresses skipping, otherwise the flags are cleared and the loop
runs from mode LEXER_SKIP_SPACES. -/
def lexerSkipSpaces (src : List Nat) (i line col : Nat) (flags : LexerFlags) : SkipResult :=
  if flags.noSkipSpaces then .done ⟨i, line, col, flags.wasNewline⟩
  else lexerSkipSpacesLoop src (src.length - i + 2) .spaces i line col false

/-- A string/template token produced by lexer_parse_string. -/
structure StrTok where
  tokType : TokenType
  length : Nat
  hasEscape : Bool
deriving DecidableEq, Repr

/-- Result of lexer_parse_string: a token with the final cursor position,
or a raised error carrying the token line/column reported with it. -/
inductive StrScanResult
| ok (tok : StrTok) (endIdx line col : Nat)
| err (e : ParserError) (line col : Nat)
| fuelOut
deriving DecidableEq, Repr

/-- Outcome of the shared tail of one lexer_parse_string iteration (the
code below the escape handling): consume and continue, break out of the
loop at a template `dollar-brace` boundary, or raise the newline error. -/
inductive StrCommonOut
| next (i line col len : Nat) (hasEscape : Bool)
| brk (i line col len : Nat) (hasEscape : Bool)
| errNewline (line col : Nat)
deriving DecidableEq, Repr

/-- The common consume step at the bottom of the lexer_parse_string loop:
one character plus its UTF-8 intermediate octets. -/
def stringConsume (src : List Nat) (i line col len : Nat) (hasEscape : Bool) : StrCommonOut :=
  let j := skipIntermediate src (i + 1)
  .next j line (add32 col 1) (len + 1 + (j - (i + 1))) hasEscape

/-- The part of one lexer_parse_string iteration that follows the
terminator / backslash checks: the 4-byte UTF-8 re-encoding accounting,
tab alignment, template newline handling and the newline error, then the
shared consume step; i points at the character being examined. -/
def stringCommon (strEnd : Nat) (src : List Nat) (i line col len : Nat) (hasEscape : Bool) : StrCommonOut :=
  let b := byteAt src i
  if b ≥ 0xf0 then .next (i + 4) line (add32 col 1) (len + 6) true
  else if b = 9 then
    stringConsume src i line (sub32 (alignColumnToTab col) 1) len hasEscape
  else if strEnd = 96 then
    if b = 123 ∧ byteAt src (i - 1) = 36 ∧ byteAt src (i - 2) ≠ 92 then
      .brk i line col (sub64 len 1) hasEscape
    else if b = 13 then
      if i + 1 < src.length ∧ byteAt src (i + 1) = 10 then
        .next (i + 2) (add32 line 1) 1 (len + 2) hasEscape
      else .next (i + 1) (add32 line 1) 1 (len + 1) hasEscape
    else if b = 10 then .next (i + 1) (add32 line 1) 1 (len + 1) hasEscape
    else if b = 0xe2 ∧ lsPsByte23 (byteAt src (i + 1)) (byteAt src (i + 2)) then
      .next (i + 3) (add32 line 1) 1 (len + 3) hasEscape
    else stringConsume src i line col len hasEscape
  else if b = 13 ∨ b = 10 ∨ (b = 0xe2 ∧ lsPsByte23 (byteAt src (i + 1)) (byteAt src (i + 2))) then
    .errNewline line col
  else stringConsume src i line col len hasEscape

/-- The post-loop processing of lexer_parse_string: the string length cap,
the token type by terminator, and the final cursor step past the
terminator (or past the brace of a template boundary). -/
def stringFinish (strEnd : Nat) (i line col len : Nat) (hasEscape : Bool) (tokLine tokCol : Nat) : StrScanResult :=
  if len > PARSER_MAXIMUM_STRING_LENGTH then .err .stringTooLong tokLine tokCol
  else
    .ok ⟨if strEnd ≠ 96 then .literal else .templateLiteral, len, hasEscape⟩
      (i + 1) line (add32 col 1)

/-- A single octal digit byte. -/
def isOctalDigit (b : Nat) : Prop := 48 ≤ b ∧ b ≤ 55

instance (b : Nat) : Decidable (isOctalDigit b) := by
  unfold isOctalDigit; infer_instance

/-- Outcome of one backslash-escape step of the lexer_parse_string loop:
continue scanning with an updated state, break out at a template boundary,
or raise an error at the given position. -/
inductive StrStepOut
| recurse (i line col len : Nat) (hasEscape : Bool) (tokLine tokCol : Nat)
| brkOut (i line col len : Nat) (hasEscape : Bool)
| raise (e : ParserError) (line col : Nat)
deriving DecidableEq, Repr

/-- The backslash branch of one lexer_parse_string iteration, with i at the
backslash: a line continuation, a legacy octal escape, a hex or unicode
escape (which rewrites token.line / token.column in place), or an ordinary
escaped character handed to the shared tail; a lone trailing backslash
continues so that the loop top raises the unterminated string error. -/
def stringEscapeStep (strict : Bool) (strEnd : Nat) (src : List Nat)
    (i line col len : Nat) (hasEscape : Bool) (tokLine tokCol : Nat) : StrStepOut :=
  if i + 1 ≥ src.length then .recurse (i + 1) line (add32 col 1) len hasEscape tokLine tokCol
  else
    let c := byteAt src (i + 1)
    if c = 13 then
      if i + 2 < src.length ∧ byteAt src (i + 2) = 10 then
        .recurse (i + 3) (add32 line 1) 1 len true tokLine tokCol
      else .recurse (i + 2) (add32 line 1) 1 len true tokLine tokCol
    else if c = 10 then .recurse (i + 2) (add32 line 1) 1 len true tokLine tokCol
    else if c = 0xe2 ∧ lsPsByte23 (byteAt src (i + 2)) (byteAt src (i + 3)) then
      .recurse (i + 4) (add32 line 1) 1 len true tokLine tokCol
    else if 48 ≤ c ∧ c ≤ 51 then
      if strict then .raise .octalEscapeNotAllowed tokLine tokCol
      else if i + 2 < src.length ∧ isOctalDigit (byteAt src (i + 2)) then
        if i + 3 < src.length ∧ isOctalDigit (byteAt src (i + 3)) then
          .recurse (i + 4) line (add32 col 4) ((if 50 ≤ c then len + 1 else len) + 1) true tokLine tokCol
        else .recurse (i + 3) line (add32 col 3) (len + 1) true tokLine tokCol
      else .recurse (i + 2) line (add32 col 2) (len + 1) true tokLine tokCol
    else if 52 ≤ c ∧ c ≤ 55 then
      if strict then .raise .octalEscapeNotAllowed tokLine tokCol
      else if i + 2 < src.length ∧ isOctalDigit (byteAt src (i + 2)) then
        .recurse (i + 3) line (add32 col 3) (len + 1) true tokLine tokCol
      else .recurse (i + 2) line (add32 col 2) (len + 1) true tokLine tokCol
    else if c = 120 ∨ c = 117 then
      let hexLen := if c = 120 then 2 else 4
      if i + 2 + hexLen > src.length then
        .raise .invalidEscapeSequence line (sub32 (add32 col 1) 1)
      else
        match lexerHexToCharacter src (i + 2) hexLen 0 with
        | none => .raise .invalidEscapeSequence line (sub32 (add32 col 1) 1)
        | some ch =>
          .recurse (i + 2 + hexLen) line (add32 (add32 col 1) (hexLen + 1))
            (len + utf8Length ch) true line (sub32 (add32 col 1) 1)
    else
      match stringCommon strEnd src (i + 1) line (add32 col 1) len true with
      | .next i2 l2 c2 len2 he2 => .recurse i2 l2 c2 len2 he2 tokLine tokCol
      | .brk i2 l2 c2 len2 he2 => .brkOut i2 l2 c2 len2 he2
      | .errNewline l2 c2 => .raise .newlineNotAllowed l2 c2

/-- The scanning loop of lexer_parse_string from js-lexer.c.  origLine and
origCol hold the original_line / original_column locals (the position just
after the opening quote); tokLine / tokCol model the token.line /
token.column fields, which escape scanning overwrites in place. -/
def parseStringLoop (strict : Bool) (strEnd origLine origCol : Nat) (src : List Nat) :
    Nat → Nat → Nat → Nat → Nat → Bool → Nat → Nat → StrScanResult
  | 0, _, _, _, _, _, _, _ => .fuelOut
  | fuel + 1, i, line, col, len, hasEscape, tokLine, tokCol =>
    if i ≥ src.length then .err .unterminatedString origLine (sub32 origCol 1)
    else if byteAt src i = strEnd then
      stringFinish strEnd i line col len hasEscape tokLine tokCol
    else if byteAt src i = 92 then
      match stringEscapeStep strict strEnd src i line col len hasEscape tokLine tokCol with
      | .recurse i2 l2 c2 len2 he2 tl2 tc2 =>
        parseStringLoop strict strEnd origLine origCol src fuel i2 l2 c2 len2 he2 tl2 tc2
      | .brkOut i2 l2 c2 len2 he2 => stringFinish strEnd i2 l2 c2 len2 he2 tokLine tokCol
      | .raise e l2 c2 => .err e l2 c2
    else
      match stringCommon strEnd src i line col len hasEscape with
      | .next i2 l2 c2 len2 he2 =>
        parseStringLoop strict strEnd origLine origCol src fuel i2 l2 c2 len2 he2 tokLine tokCol
      | .brk i2 l2 c2 len2 he2 => stringFinish strEnd i2 l2 c2 len2 he2 tokLine tokCol
      | .errNewline l2 c2 => .err .newlineNotAllowed l2 c2

/-- lexer_parse_string from js-lexer.c, entered with the cursor at the
opening quote (or at the closing brace of a template continuation, which
the function retargets to the backtick terminator); line and col are the
cursor position of that quote. -/
def lexerParseString (strict : Bool) (src : List Nat) (startIdx line col : Nat) : StrScanResult :=
  let strEnd0 := byteAt src startIdx
  let strEnd := if strEnd0 = 125 then 96 else strEnd0
  parseStringLoop strict strEnd line (add32 col 1) src (src.length + 2)
    (startIdx + 1) line (add32 col 1) 0 false line col

/-- Modelled from the spec: the character classifiers
util_is_identifier_start, util_is_identifier_part (on a byte pointer) and
util_is_identifier_start_character, util_is_identifier_part_character (on a
decoded 16-bit character) live in js-parser-util.c, which is not under
src; the embedded identifier scanner is parametrized over them. -/
structure UtilFns where
  isIdentStart : List Nat → Nat → Bool
  isIdentPart : List Nat → Nat → Bool
  isIdentStartCharacter : Nat → Bool
  isIdentPartCharacter : Nat → Bool

/-- Modelled from the spec: the ASCII identifier-start classifier (letters,
dollar, underscore) used to instantiate UtilFns on concrete inputs. -/
def asciiIdentStartChar (c : Nat) : Bool :=
  decide ((65 ≤ c ∧ c ≤ 90) ∨ (97 ≤ c ∧ c ≤ 122) ∨ c = 36 ∨ c = 95)

/-- Modelled from the spec: the ASCII identifier-part classifier
(identifier start characters plus decimal digits). -/
def asciiIdentPartChar (c : Nat) : Bool :=
  asciiIdentStartChar c || decide (48 ≤ c ∧ c ≤ 57)

/-- The UtilFns instance built from the ASCII classifiers. -/
def asciiUtilFns : UtilFns :=
  ⟨fun src i => asciiIdentStartChar (byteAt src i),
   fun src i => asciiIdentPartChar (byteAt src i),
   asciiIdentStartChar,
   asciiIdentPartChar⟩

/-- Outcome of the scanning do-while loop of lexer_parse_identifier. -/
inductive IdentScanOut
| ok (i len col : Nat) (hasEscape : Bool)
| err (e : ParserError)
| fuelOut
deriving DecidableEq, Repr

/-- The scanning do-while loop of lexer_parse_identifier from js-lexer.c:
either a `backslash-u` escape of exactly four hex digits (validated as an
identifier start at length 0 and as an identifier part otherwise), or one
character together with its UTF-8 intermediate octets; the loop continues
while the next byte is an identifier part or a backslash. -/
def parseIdentifierLoop (u : UtilFns) (src : List Nat) : Nat → Nat → Nat → Nat → Bool → IdentScanOut
  | 0, _, _, _, _ => .fuelOut
  | fuel + 1, i, len, col, hasEscape =>
    if byteAt src i = 92 then
      if i + 6 > src.length ∨ byteAt src (i + 1) ≠ 117 then
        .err .invalidUnicodeEscapeSequence
      else
        match lexerHexToCharacter src (i + 2) 4 0 with
        | none => .err .invalidEscapeSequence
        | some ch =>
          if len = 0 ∧ ¬ u.isIdentStartCharacter ch then .err .invalidIdentifierStart
          else if len ≠ 0 ∧ ¬ u.isIdentPartCharacter ch then .err .invalidIdentifierPart
          else
            if i + 6 < src.length ∧ (u.isIdentPart src (i + 6) = true ∨ byteAt src (i + 6) = 92) then
              parseIdentifierLoop u src fuel (i + 6) (len + utf8Length ch) (add32 col 6) true
            else .ok (i + 6) (len + utf8Length ch) (add32 col 6) true
    else
      let j := skipIntermediate src (i + 1)
      if j < src.length ∧ (u.isIdentPart src j = true ∨ byteAt src j = 92) then
        parseIdentifierLoop u src fuel j (len + 1 + (j - (i + 1))) (add32 col 1) hasEscape
      else .ok j (len + 1 + (j - (i + 1))) (add32 col 1) hasEscape

/-- One entry of the keyword tables: the keyword string and whether its
token type is at or above LEXER_FIRST_FUTURE_STRICT_RESERVED_WORD.
Modelled from the spec for the flag: the token type enumeration
(js-lexer.h) is not under src; the spec's future-reserved-word handling
marks the strict-mode future reserved words (implements, interface, let,
package, private, protected, public, static, yield, await). -/
structure KwEntry where
  name : String
  futureReserved : Bool
deriving DecidableEq, Repr

/-- keywords_with_length_2 from js-lexer.c. -/
def keywordsWithLength2 : List KwEntry :=
  [⟨"do", false⟩, ⟨"if", false⟩, ⟨"in", false⟩]

/-- keywords_with_length_3 from js-lexer.c. -/
def keywordsWithLength3 : List KwEntry :=
  [⟨"for", false⟩, ⟨"let", true⟩, ⟨"new", false⟩, ⟨"try", false⟩, ⟨"var", false⟩]

/-- keywords_with_length_4 from js-lexer.c. -/
def keywordsWithLength4 : List KwEntry :=
  [⟨"case", false⟩, ⟨"else", false⟩, ⟨"enum", false⟩, ⟨"null", false⟩,
   ⟨"this", false⟩, ⟨"true", false⟩, ⟨"void", false⟩, ⟨"with", false⟩]

/-- keywords_with_length_5 from js-lexer.c (ES2015 configuration, so await
is present). -/
def keywordsWithLength5 : List KwEntry :=
  [⟨"await", true⟩, ⟨"break", false⟩, ⟨"catch", false⟩, ⟨"class", false⟩,
   ⟨"const", false⟩, ⟨"false", false⟩, ⟨"super", false⟩, ⟨"throw", false⟩,
   ⟨"while", false⟩, ⟨"yield", true⟩]

/-- keywords_with_length_6 from js-lexer.c. -/
def keywordsWithLength6 : List KwEntry :=
  [⟨"delete", false⟩, ⟨"export", false⟩, ⟨"import", false⟩, ⟨"public", true⟩,
   ⟨"return", false⟩, ⟨"static", true⟩, ⟨"switch", false⟩, ⟨"typeof", false⟩]

/-- keywords_with_length_7 from js-lexer.c. -/
def keywordsWithLength7 : List KwEntry :=
  [⟨"default", false⟩, ⟨"extends", false⟩, ⟨"finally", false⟩,
   ⟨"package", true⟩, ⟨"private", true⟩]

/-- keywords_with_length_8 from js-lexer.c. -/
def keywordsWithLength8 : List KwEntry :=
  [⟨"continue", false⟩, ⟨"debugger", false⟩, ⟨"function", false⟩]

/-- keywords_with_length_9 from js-lexer.c. -/
def keywordsWithLength9 : List KwEntry :=
  [⟨"interface", true⟩, ⟨"protected", true⟩]

/-- keywords_with_length_10 from js-lexer.c. -/
def keywordsWithLength10 : List KwEntry :=
  [⟨"implements", true⟩, ⟨"instanceof", false⟩]

/-- keyword_strings_list from js-lexer.c: the bucket for decoded length
k + 2. -/
def keywordStringsList (k : Nat) : List KwEntry :=
  match k with
  | 0 => keywordsWithLength2
  | 1 => keywordsWithLength3
  | 2 => keywordsWithLength4
  | 3 => keywordsWithLength5
  | 4 => keywordsWithLength6
  | 5 => keywordsWithLength7
  | 6 => keywordsWithLength8
  | 7 => keywordsWithLength9
  | 8 => keywordsWithLength10
  | _ => []

/-- The bytes of a keyword string. -/
def kwBytes (s : String) : List Nat := s.data.map Char.toNat

/-- memcmp on the first n bytes of two byte lists: the sign of the first
differing byte pair, 0 when the prefixes agree. -/
def memcmpBytes : List Nat → List Nat → Nat → Int
  | _, _, 0 => 0
  | [], _, _ + 1 => 0
  | _ :: _, [], _ + 1 => 0
  | a :: as, b :: bs, n + 1 =>
    if a ≠ b then (a : Int) - (b : Int) else memcmpBytes as bs n

/-- Outcome of the keyword binary search in lexer_parse_identifier. -/
inductive KwLookup
| foundKeyword (name : String)
| foundFutureReserved
| noMatch
deriving DecidableEq, Repr

/-- The keyword binary search do-while loop of lexer_parse_identifier:
compare the first bytes, on equality memcmp the whole length, then narrow
[start, stop) around middle. -/
def kwSearchLoop (bucket : List KwEntry) (ident : List Nat) (len : Nat) :
    Nat → Nat → Nat → Nat → KwLookup
  | 0, _, _, _ => .noMatch
  | fuel + 1, start, stop, middle =>
    let kw := bucket.getD middle ⟨"", false⟩
    let c0 : Int := (ident.headD 0 : Int) - ((kwBytes kw.name).headD 0 : Int)
    let cmp : Int := if c0 = 0 then memcmpBytes ident (kwBytes kw.name) len else c0
    if cmp = 0 then
      if kw.futureReserved then .foundFutureReserved else .foundKeyword kw.name
    else
      let start2 := if cmp > 0 then middle + 1 else start
      let stop2 := if cmp > 0 then stop else middle
      if start2 < stop2 then
        kwSearchLoop bucket ident len fuel start2 stop2 ((start2 + stop2) / 2)
      else .noMatch

/-- The keyword lookup entry point: start = 0, stop = the bucket length,
middle = stop / 2, as in lexer_parse_identifier. -/
def keywordLookup (bucket : List KwEntry) (ident : List Nat) (len : Nat) : KwLookup :=
  kwSearchLoop bucket ident len (bucket.length + 2) 0 bucket.length (bucket.length / 2)

/-- The token produced by lexer_parse_identifier: its type, the
literal_is_reserved flag, the lit_location has_escape flag, the scanned
decoded length, the lit_location char span (filled only when the token
stays LEXER_LITERAL, as in the source), and the final cursor. -/
structure IdentToken where
  tokType : TokenType
  literalIsReserved : Bool
  hasEscape : Bool
  scanLength : Nat
  loc : Option (Nat × Nat)
  endIdx : Nat
  endCol : Nat
deriving DecidableEq, Repr

/-- Result of lexer_parse_identifier. -/
inductive ParseIdentResult
| ok (tok : IdentToken)
| err (e : ParserError)
| fuelOut
deriving DecidableEq, Repr

/-- lexer_parse_identifier from js-lexer.c: scan the identifier, enforce
PARSER_MAXIMUM_IDENT_LENGTH, and check the keyword tables only when
check_keywords is set, the identifier has no escape, and its decoded length
is between 2 and 10 inclusive; a future strict reserved word raises
PARSER_ERR_STRICT_IDENT_NOT_ALLOWED in strict mode and otherwise only
marks the literal reserved. -/
def lexerParseIdentifier (u : UtilFns) (strict checkKeywords : Bool)
    (src : List Nat) (startIdx col : Nat) : ParseIdentResult :=
  match parseIdentifierLoop u src (src.length - startIdx + 2) startIdx 0 col false with
  | .fuelOut => .fuelOut
  | .err e => .err e
  | .ok i len endCol hasEscape =>
    if len > PARSER_MAXIMUM_IDENT_LENGTH then .err .identifierTooLong
    else
      match (if checkKeywords = true ∧ hasEscape = false ∧ 2 ≤ len ∧ len ≤ 10 then
              keywordLookup (keywordStringsList (len - 2)) ((src.drop startIdx).take len) len
            else .noMatch) with
      | .foundKeyword name => .ok ⟨.keyword name, false, hasEscape, len, none, i, endCol⟩
      | .foundFutureReserved =>
        if strict then .err .strictIdentNotAllowed
        else .ok ⟨.literal, true, hasEscape, len, some (startIdx, len), i, endCol⟩
      | .noMatch => .ok ⟨.literal, false, hasEscape, len, some (startIdx, len), i, endCol⟩

/-- The lit_location of a token: the raw character span start, the decoded
byte length, and the has_escape flag. -/
structure LitLocation where
  offset : Nat
  length : Nat
  hasEscape : Bool
deriving DecidableEq, Repr

/-- lexer_compare_raw_identifier_to_current from js-lexer.c: zero when the
lengths differ or the current literal has escapes, else memcmp of the raw
span against the given ASCII identifier. -/
def lexerCompareRawIdentifierToCurrent (src : List Nat) (loc : LitLocation)
    (rightIdent : List Nat) : Bool :=
  if loc.length ≠ rightIdent.length ∨ loc.hasEscape = true then false
  else decide ((src.drop loc.offset).take rightIdent.length = rightIdent)

/-- A token produced by lexer_scan_identifier: type, token position and
lit_location. -/
structure ScanToken where
  tokType : TokenType
  line : Nat
  col : Nat
  loc : LitLocation
deriving DecidableEq, Repr

/-- Result of lexer_scan_identifier.  The delegated constructor marks the
non-identifier-start branch taken with property_name set, where the source
falls back to lexer_next_token for string / number / punctuator property
names (none of which the get / set reclassification applies to). -/
inductive ScanIdentResult
| ok (tok : ScanToken) (endIdx endCol : Nat) (wasNewline : Bool)
| err (e : ParserError)
| delegated (st : SkipState)
| fuelOut
deriving DecidableEq, Repr

/-- lexer_scan_identifier from js-lexer.c: skip spaces, scan an identifier
without keyword checking, and with property_name set reclassify a
three-character escape-free `get` / `set` spelling (not followed by a
colon) into the property getter / setter token types. -/
def lexerScanIdentifier (u : UtilFns) (strict : Bool) (src : List Nat)
    (i line col : Nat) (flags : LexerFlags) (propertyName : Bool) : ScanIdentResult :=
  match lexerSkipSpaces src i line col flags with
  | .fuelOut => .fuelOut
  | .errUnterminatedComment => .err .unterminatedMultilineComment
  | .done st =>
    if st.i < src.length ∧ (u.isIdentStart src st.i = true ∨ byteAt src st.i = 92) then
      match lexerParseIdentifier u strict false src st.i st.col with
      | .fuelOut => .fuelOut
      | .err e => .err e
      | .ok tok =>
        let loc : LitLocation := ⟨st.i, tok.scanLength, tok.hasEscape⟩
        if propertyName = true ∧ tok.scanLength = 3 then
          match lexerSkipSpaces src tok.endIdx st.line tok.endCol ⟨st.wasNewline, false⟩ with
          | .fuelOut => .fuelOut
          | .errUnterminatedComment => .err .unterminatedMultilineComment
          | .done st2 =>
            if st2.i < src.length ∧ byteAt src st2.i ≠ 58 then
              if lexerCompareRawIdentifierToCurrent src loc (kwBytes ("get")) then
                .ok ⟨.propertyGetter, st.line, st.col, loc⟩ st2.i st2.col st2.wasNewline
              else if lexerCompareRawIdentifierToCurrent src loc (kwBytes ("set")) then
                .ok ⟨.propertySetter, st.line, st.col, loc⟩ st2.i st2.col st2.wasNewline
              else .ok ⟨.literal, st.line, st.col, loc⟩ st2.i st2.col st2.wasNewline
            else .ok ⟨.literal, st.line, st.col, loc⟩ st2.i st2.col st2.wasNewline
        else .ok ⟨.literal, st.line, st.col, loc⟩ tok.endIdx tok.endCol st.wasNewline
    else if propertyName then .delegated st
    else .err .identifierExpected

/-- One step of lexer_decode_unicode_sequence: chr = chr * 16 plus the
digit value, in wrapping 16-bit arithmetic, with the source's `byte lower
or equal to ASCII 9` test and ASCII lowercasing by bit 0x20. -/
def decodeUnicodeStep (chr b : Nat) : Nat :=
  if b ≤ 57 then ((chr * 16) % 65536 + b + 65536 - 48) % 65536
  else ((chr * 16) % 65536 + (b ||| 0x20) + 65536 - 87) % 65536

/-- lexer_decode_unicode_sequence from js-lexer.c: decode the four hex
digit bytes of a `backslash-u-HHHH` sequence starting at index i (the
bytes at i + 2 .. i + 5), without validation. -/
def lexerDecodeUnicodeSequence (src : List Nat) (i : Nat) : Nat :=
  decodeUnicodeStep
    (decodeUnicodeStep
      (decodeUnicodeStep
        (decodeUnicodeStep 0 (byteAt src (i + 2)))
        (byteAt src (i + 3)))
      (byteAt src (i + 4)))
    (byteAt src (i + 5))

/-- Result of the embedded lexer_compare_identifier_to_current: equal,
not equal, a read past the end of a buffer (undefined behaviour in the C
code, reified), or fuel exhaustion. -/
inductive CmpResult
| eq
| ne
| oobRead
| fuelOut
deriving DecidableEq, Repr

/-- Compare the given byte list against the bytes of nb starting at index
ni (the utf8_buf comparison loop of the mixed escaped / raw branch); none
reifies a read past the end of nb. -/
def cmpBytesAt : List Nat → Nat → List Nat → Option Bool
  | _, _, [] => some true
  | nb, ni, b :: bs =>
    match nb.get? ni with
    | none => none
    | some x => if b ≠ x then some false else cmpBytesAt nb (ni + 1) bs

/-- The do-while loop of lexer_compare_identifier_to_current from
js-lexer.c, transcribed byte for byte: both sides raw compares one byte
and decrements count; both sides escaped decodes both sequences and ADDS
the UTF-8 length of the decoded character to count (as the source does);
one side escaped decodes it, subtracts its UTF-8 length from count and
compares its UTF-8 bytes against the raw side, permanently swapping the
two sides so the escaped one is left.  count is a size_t with wrapping
arithmetic; the loop repeats while count is positive. -/
def cmpIdentLoop : Nat → List Nat → List Nat → Nat → Nat → Nat → CmpResult
  | 0, _, _, _, _, _ => .fuelOut
  | fuel + 1, lb, rb, li, ri, count =>
    match lb.get? li, rb.get? ri with
    | none, _ => .oobRead
    | _, none => .oobRead
    | some l0, some r0 =>
      if l0 ≠ 92 ∧ r0 ≠ 92 then
        if l0 ≠ r0 then .ne
        else
          if sub64 count 1 > 0 then cmpIdentLoop fuel lb rb (li + 1) (ri + 1) (sub64 count 1)
          else .eq
      else if l0 = 92 ∧ r0 = 92 then
        if li + 6 ≤ lb.length ∧ ri + 6 ≤ rb.length then
          if lexerDecodeUnicodeSequence lb li ≠ lexerDecodeUnicodeSequence rb ri then .ne
          else
            let count2 := add64 count (utf8Length (lexerDecodeUnicodeSequence lb li))
            if count2 > 0 then cmpIdentLoop fuel lb rb (li + 6) (ri + 6) count2
            else .eq
        else .oobRead
      else
        -- exactly one side is escaped; the source swaps left and right so
        -- the escaped side is walked as left from now on
        let eb := if r0 = 92 then rb else lb
        let ei := if r0 = 92 then ri else li
        let nb := if r0 = 92 then lb else rb
        let ni := if r0 = 92 then li else ri
        if ei + 6 ≤ eb.length then
          let buf := utf8Bytes (lexerDecodeUnicodeSequence eb ei)
          match cmpBytesAt nb ni buf with
          | none => .oobRead
          | some false => .ne
          | some true =>
            let count2 := sub64 count buf.length
            if count2 > 0 then cmpIdentLoop fuel eb nb (ei + 6) (ni + buf.length) count2
            else .eq
        else .oobRead

/-- lexer_compare_identifier_to_current from js-lexer.c.  Each side is
given as the byte suffix of the source buffer from its char_p on (so that
walking past the identifier stays in bounds exactly as long as the buffer
lasts), with its decoded length and has_escape flag.  When neither side
has escapes the comparison is a plain memcmp of length bytes. -/
def lexerCompareIdentifierToCurrent (fuel : Nat) (lb rb : List Nat)
    (llen rlen : Nat) (lesc resc : Bool) : CmpResult :=
  if llen ≠ rlen then .ne
  else if lesc = false ∧ resc = false then
    if llen ≤ lb.length ∧ rlen ≤ rb.length then
      if lb.take llen = rb.take rlen then .eq else .ne
    else .oobRead
  else cmpIdentLoop fuel lb rb 0 0 llen

/-- The literal types of lexer_literal_t entries. -/
inductive LitType
| identL
| stringL
| numberL
| functionL
| regexpL
| unusedL
deriving DecidableEq, Repr

/-- A literal pool entry: its type, its prop.length, its character
content, and its status flags. -/
structure LexerLiteral where
  litType : LitType
  length : Nat
  chars : List Nat
  statusFlags : Nat
deriving DecidableEq, Repr

/-- Modelled from the spec: util_compare_char_literals of the missing
js-parser-util.c; per the spec it is content equality of the decoded bytes
of the stored entry and the queried characters. -/
def utilCompareCharLiterals (lit : LexerLiteral) (chars : List Nat) : Bool :=
  decide (lit.chars = chars.take lit.length)

/-- The search loop of lexer_process_char_literal: the first entry of the
pool with the same type, the same length and equal content, counting
indices as the iterator advances. -/
def literalSearchLoop (litType : LitType) (length : Nat) (chars : List Nat) :
    List LexerLiteral → Nat → Option Nat
  | [], _ => none
  | lit :: rest, idx =>
    if lit.litType = litType ∧ lit.length = length ∧ utilCompareCharLiterals lit chars = true then
      some idx
    else literalSearchLoop litType length chars rest (idx + 1)

/-- Clearing the LEXER_FLAG_UNUSED_IDENT bit of an entry's status flags
(the uint8 complement mask of the source). -/
def clearUnusedIdentFlag (lit : LexerLiteral) : LexerLiteral :=
  { lit with statusFlags := lit.statusFlags &&& (0xff ^^^ LEXER_FLAG_UNUSED_IDENT) }

/-- lexer_process_char_literal from js-lexer.c: search the pool for an
entry of the same type, length and content; on a hit return its index and
clear its LEXER_FLAG_UNUSED_IDENT flag; on a miss fail with
PARSER_ERR_LITERAL_LIMIT_REACHED at PARSER_MAXIMUM_NUMBER_OF_LITERALS
entries, else append a new entry (has_escape forced to 0 for length 0, and
LEXER_FLAG_SOURCE_PTR set exactly when the entry has no escapes) whose
index is the previous literal count. -/
def lexerProcessCharLiteral (pool : List LexerLiteral) (chars : List Nat)
    (length : Nat) (litType : LitType) (hasEscape : Bool) :
    Except ParserError (List LexerLiteral × Nat) :=
  match literalSearchLoop litType length chars pool 0 with
  | some idx =>
    .ok (pool.set idx (clearUnusedIdentFlag (pool.getD idx ⟨.unusedL, 0, [], 0⟩)), idx)
  | none =>
    if pool.length ≥ PARSER_MAXIMUM_NUMBER_OF_LITERALS then .error .literalLimitReached
    else
      let he := if length = 0 then false else hasEscape
      .ok (pool ++ [⟨litType, length, chars.take length,
                    if he then 0 else LEXER_FLAG_SOURCE_PTR⟩], pool.length)

/-- lexer_construct_number_object from js-lexer.c.  The decoded integer
value of the token (the result of the external util_get_number of the
missing js-parser-util.c) is passed in as `number`; litLength is the
token's lit_location length.  Returns the is-small-number flag, the
lit_object index, and the updated pool. -/
def lexerConstructNumberObject (pool : List LexerLiteral) (litLength : Nat)
    (number : Int) (isExpr isNegativeNumber : Bool) :
    Except ParserError (Bool × Nat × List LexerLiteral) :=
  if isExpr = true ∧ number ≤ (CBC_PUSH_NUMBER_BYTE_RANGE_END : Int) ∧
      (number ≠ 0 ∨ isNegativeNumber = false) then
    .ok (true, (number.emod 65536).toNat, pool)
  else if pool.length ≥ PARSER_MAXIMUM_NUMBER_OF_LITERALS then
    .error .literalLimitReached
  else
    .ok (false, pool.length, pool ++ [⟨.numberL, litLength, [], 0⟩])

/-- The named escape conversion switch of lexer_construct_literal_object
(b, t, n, v, f, r); any other byte stands for itself. -/
def namedEscapeChar (c : Nat) : Nat :=
  if c = 98 then 0x08
  else if c = 116 then 0x09
  else if c = 110 then 0x0a
  else if c = 118 then 0x0b
  else if c = 102 then 0x0c
  else if c = 114 then 0x0d
  else c

/-- The shared emit step at the bottom of the string decoding loop of
lexer_construct_literal_object: a 4-byte UTF-8 sequence is re-encoded as
the 3-byte encodings of its two surrogate code units, any other character
is copied together with its UTF-8 intermediate octets; returns the bytes
written and the next source index. -/
def stringDecodeCommon (src : List Nat) (i : Nat) : List Nat × Nat :=
  let b := byteAt src i
  if b ≥ 0xf0 then
    let character := ((b &&& 0x7) <<< 18) ||| ((byteAt src (i + 1) &&& 0x3f) <<< 12) |||
      ((byteAt src (i + 2) &&& 0x3f) <<< 6) ||| (byteAt src (i + 3) &&& 0x3f)
    let ch := character - 0x10000
    (utf8Bytes (0xd800 ||| (ch >>> 10)) ++ utf8Bytes (0xdc00 ||| (ch &&& 0x3ff)), i + 4)
  else
    let j := skipIntermediate src (i + 1)
    ((src.drop i).take (j - i), j)

/-- Result of the string decoding loop of lexer_construct_literal_object:
the decoded bytes with the index of the terminator reached, the reraise of
an invalid hex escape, or fuel exhaustion. -/
inductive DecodeResult
| ok (bytes : List Nat) (endIdx : Nat)
| invalidHex
| fuelOut
deriving DecidableEq, Repr

/-- Prepend emitted bytes to the rest of a decode result. -/
def decodePrepend (bs : List Nat) : DecodeResult → DecodeResult
  | .ok bytes e => .ok (bs ++ bytes) e
  | r => r

/-- The string branch of lexer_construct_literal_object from js-lexer.c
(the escape-decoding copy loop over a scanned string literal): stops at
the terminator or at a template `dollar-brace` boundary, elides
line continuations, decodes octal, hex and unicode escapes and named
escapes, and re-encodes 4-byte UTF-8 sequences as surrogate pairs. -/
def decodeStringLoop (strEnd : Nat) (src : List Nat) : Nat → Nat → DecodeResult
  | 0, _ => .fuelOut
  | fuel + 1, i =>
    let b := byteAt src i
    if b = strEnd then .ok [] i
    else if b = 92 then
      let c := byteAt src (i + 1)
      if c = 13 then
        decodeStringLoop strEnd src fuel (if byteAt src (i + 2) = 10 then i + 3 else i + 2)
      else if c = 10 then decodeStringLoop strEnd src fuel (i + 2)
      else if c = 0xe2 ∧ lsPsByte23 (byteAt src (i + 2)) (byteAt src (i + 3)) then
        decodeStringLoop strEnd src fuel (i + 4)
      else if 48 ≤ c ∧ c ≤ 51 then
        if isOctalDigit (byteAt src (i + 2)) then
          if isOctalDigit (byteAt src (i + 3)) then
            decodePrepend
              (utf8Bytes (((c - 48) * 8 + (byteAt src (i + 2) - 48)) * 8 + (byteAt src (i + 3) - 48)))
              (decodeStringLoop strEnd src fuel (i + 4))
          else
            decodePrepend (utf8Bytes ((c - 48) * 8 + (byteAt src (i + 2) - 48)))
              (decodeStringLoop strEnd src fuel (i + 3))
        else decodePrepend (utf8Bytes (c - 48)) (decodeStringLoop strEnd src fuel (i + 2))
      else if 52 ≤ c ∧ c ≤ 55 then
        if isOctalDigit (byteAt src (i + 2)) then
          decodePrepend [(c - 48) * 8 + (byteAt src (i + 2) - 48)]
            (decodeStringLoop strEnd src fuel (i + 3))
        else decodePrepend [c - 48] (decodeStringLoop strEnd src fuel (i + 2))
      else if c = 120 ∨ c = 117 then
        let hexLen := if c = 120 then 2 else 4
        match lexerHexToCharacter src (i + 2) hexLen 0 with
        | none => .invalidHex
        | some ch =>
          decodePrepend (utf8Bytes ch) (decodeStringLoop strEnd src fuel (i + 2 + hexLen))
      else if namedEscapeChar c ≠ c then
        decodePrepend [namedEscapeChar c] (decodeStringLoop strEnd src fuel (i + 2))
      else
        decodePrepend (stringDecodeCommon src (i + 1)).1
          (decodeStringLoop strEnd src fuel (stringDecodeCommon src (i + 1)).2)
    else if strEnd = 96 ∧ b = 36 ∧ byteAt src (i + 1) = 123 then .ok [] (i + 1)
    else
      decodePrepend (stringDecodeCommon src i).1
        (decodeStringLoop strEnd src fuel (stringDecodeCommon src i).2)

/-- Errors raised while scanning a regular expression body. -/
inductive RegexpError
| unterminatedRegexp
| newlineNotAllowed
deriving DecidableEq, Repr

/-- Result of the regexp body scanning loop. -/
inductive RegexpScanOut
| ok (i col : Nat)
| err (e : RegexpError)
| fuelOut
deriving DecidableEq, Repr

/-- The body scanning loop of lexer_construct_regexp_object from
js-lexer.c (up to and including the closing slash): character classes
suspend the slash terminator, backslash escapes of printable ASCII consume
an extra byte and column, tabs realign the column, raw line terminators
are rejected, and each consumed character skips its UTF-8 intermediate
octets without advancing the column. -/
def regexpScanLoop (src : List Nat) : Nat → Nat → Nat → Bool → RegexpScanOut
  | 0, _, _, _ => .fuelOut
  | fuel + 1, i, col, inClass =>
    if i ≥ src.length then .err .unterminatedRegexp
    else
      let b := byteAt src i
      if inClass = false ∧ b = 47 then .ok (i + 1) (add32 col 1)
      else if b = 13 ∨ b = 10 ∨ (b = 0xe2 ∧ lsPsByte23 (byteAt src (i + 1)) (byteAt src (i + 2))) then
        .err .newlineNotAllowed
      else if b = 9 then
        regexpScanLoop src fuel (skipIntermediate src (i + 1))
          (add32 (sub32 (alignColumnToTab col) 1) 1) inClass
      else if b = 91 then
        regexpScanLoop src fuel (skipIntermediate src (i + 1)) (add32 col 1) true
      else if b = 93 then
        regexpScanLoop src fuel (skipIntermediate src (i + 1)) (add32 col 1) false
      else if b = 92 then
        if i + 1 ≥ src.length then .err .unterminatedRegexp
        else if 0x20 ≤ byteAt src (i + 1) ∧ byteAt src (i + 1) ≤ 0x7f then
          regexpScanLoop src fuel (skipIntermediate src (i + 2)) (add32 col 2) inClass
        else regexpScanLoop src fuel (skipIntermediate src (i + 1)) (add32 col 1) inClass
      else regexpScanLoop src fuel (skipIntermediate src (i + 1)) (add32 col 1) inClass

/-- The default literal pool entry used for out-of-range getD reads. -/
def defaultLiteral : LexerLiteral := ⟨.unusedL, 0, [], 0⟩

/-- The match predicate of the lexer_process_char_literal search: same
type, same length, equal (escape-aware) content. -/
def litEntryMatches (t : LitType) (len : Nat) (chars : List Nat) (lit : LexerLiteral) : Prop :=
  lit.litType = t ∧ lit.length = len ∧ utilCompareCharLiterals lit chars = true

instance (t : LitType) (len : Nat) (chars : List Nat) (lit : LexerLiteral) :
    Decidable (litEntryMatches t len chars lit) := by
  unfold litEntryMatches; infer_instance

/-- The 24-bit value encoded by a 4-byte UTF-8 sequence at index i, as
computed by the decoder of lexer_construct_literal_object. -/
def astralChar (src : List Nat) (i : Nat) : Nat :=
  ((byteAt src i &&& 0x7) <<< 18) ||| ((byteAt src (i + 1) &&& 0x3f) <<< 12) |||
    ((byteAt src (i + 2) &&& 0x3f) <<< 6) ||| (byteAt src (i + 3) &&& 0x3f)

/-- The high surrogate code unit emitted for the astral character at i. -/
def highSurrogate (src : List Nat) (i : Nat) : Nat :=
  0xd800 ||| ((astralChar src i - 0x10000) >>> 10)

/-- The low surrogate code unit emitted for the astral character at i. -/
def lowSurrogate (src : List Nat) (i : Nat) : Nat :=
  0xdc00 ||| ((astralChar src i - 0x10000) &&& 0x3ff)

/-- The source buffer of the C2 counterexample: the two identifiers
`backslash-u0041` at offsets 0 and 7, separated by a space; both spell the
one-character identifier A. -/
def c2SourceBuffer : List Nat := [92, 117, 48, 48, 52, 49, 32, 92, 117, 48, 48, 52, 49]

end JerryLexer

/-! ## Theorems -/

namespace JerryCbc

/-- C1, counterexample: the claimed bit-packing fails on the opcode
tables as generated: the backward branch CBC_EXT_BRANCH_IF_FOR_IN_HAS_NEXT
sits at ordinal 9 of CBC_EXT_OPCODE_LIST, and 9 &&& 0x4 = 0, which the
claim reserves for forward branches. -/
theorem C1_branch_packing_counterexample : ¬ claimC1 := by
  intro h
  have hd := (h.2 9 (by decide)).2
  have hiff := (hd (by decide)).1
  exact (by decide : ¬ isForwardBranchOp (opAt cbcExtOpcodeList 9)) (hiff.mp (by decide))

set_option maxRecDepth 4000 in
/-- C1, amended: for every branch opcode of CBC_OPCODE_LIST and
CBC_EXT_OPCODE_LIST the ordinal's low two bits give the offset byte width
(1, 2 or 3); the direction bit 0x4 and the forward/backward pairing four
slots apart within a group of 8 hold for the branch opcodes of
CBC_OPCODE_LIST below ordinal 24 (the paired jump / branch-if-true /
branch-if-false groups), direction being carried elsewhere only by the
CBC_FORWARD_BRANCH_ARG flag. -/
theorem C1_branch_packing_amended : amendedBranchPacking := by decide

end JerryCbc

namespace JerryLexer

open JerryCbc (CBC_PUSH_NUMBER_BYTE_RANGE_END)

theorem sub32_add32_one (c : Nat) (h : c < M32) : sub32 (add32 c 1) 1 = c := by
  unfold sub32 add32 M32 at *
  omega

theorem add32_sub32_one (x : Nat) (h1 : 1 ≤ x) (h2 : x < M32) : add32 (sub32 x 1) 1 = x := by
  unfold sub32 add32 M32 at *
  omega

theorem and_mask32_eq (y : Nat) (hy : y < 4294967296) :
    y &&& 0xFFFFFFF8 = (y >>> 3) <<< 3 := by
  apply Nat.eq_of_testBit_eq
  intro i
  rw [Nat.testBit_and, Nat.testBit_shiftLeft, Nat.testBit_shiftRight,
      show (0xFFFFFFF8 : Nat) = (2 ^ 29 - 1) <<< 3 from by decide,
      Nat.testBit_shiftLeft, Nat.testBit_two_pow_sub_one]
  by_cases h3 : 3 ≤ i
  · rw [Nat.add_sub_cancel' h3]
    by_cases h32 : i < 32
    · have hlt : i - 3 < 29 := by omega
      simp [h3, hlt]
    · have hfalse : y.testBit i = false :=
        Nat.testBit_lt_two_pow
          (lt_of_lt_of_le hy (Nat.pow_le_pow_right (show 0 < 2 by norm_num) (show 32 ≤ i by omega)))
      simp [hfalse, show ¬ (i - 3 < 29) from by omega]
  · simp [show ¬ i ≥ 3 from by omega]

theorem alignColumnToTab_eq (c : Nat) (h : c + 8 ≤ M32) :
    alignColumnToTab c = 8 * ((c + 7) / 8) + 1 := by
  unfold alignColumnToTab M32 at *
  have h1 : (c + 7) % 4294967296 = c + 7 := Nat.mod_eq_of_lt (by omega)
  rw [h1, and_mask32_eq (c + 7) (by omega), Nat.shiftRight_eq_div_pow, Nat.shiftLeft_eq]
  have h2 : (c + 7) / 2 ^ 3 * 2 ^ 3 + 1 < 4294967296 := by
    have := Nat.div_mul_le_self (c + 7) 8
    norm_num at *
    omega
  rw [Nat.mod_eq_of_lt h2]
  norm_num [Nat.mul_comm]

theorem alignColumnToTab_pos (c : Nat) :
    1 ≤ alignColumnToTab c ∧ alignColumnToTab c < M32 := by
  unfold alignColumnToTab M32
  have h1 : ((c + 7) % 4294967296) &&& 0xFFFFFFF8 ≤ 0xFFFFFFF8 := Nat.and_le_right
  omega

theorem skipIntermediate_stop (src : List Nat) (i : Nat)
    (h : ¬ (i < src.length ∧ isUtf8Intermediate (byteAt src i))) :
    skipIntermediate src i = i := by
  unfold skipIntermediate
  rw [skipIntermediateGo, if_neg h]

set_option maxHeartbeats 1000000 in
theorem stringEscapeStep_raise_ne_unterminated (strict : Bool) (strEnd : Nat) (src : List Nat)
    (i line col len : Nat) (he : Bool) (tl tc : Nat) (e : ParserError) (l c : Nat)
    (h : stringEscapeStep strict strEnd src i line col len he tl tc = .raise e l c) :
    e ≠ .unterminatedString := by
  simp only [stringEscapeStep] at h
  repeat' split at h
  all_goals first
    | exact StrStepOut.noConfusion h
    | (injection h with h1 h2 h3; rw [← h1]; decide)

set_option maxHeartbeats 1000000 in
theorem parseStringLoop_unterminated (strict : Bool) (strEnd origLine origCol : Nat)
    (src : List Nat) :
    ∀ (fuel i line col len : Nat) (he : Bool) (tl tc l c : Nat),
      parseStringLoop strict strEnd origLine origCol src fuel i line col len he tl tc =
        .err .unterminatedString l c →
      l = origLine ∧ c = sub32 origCol 1 := by
  intro fuel
  induction fuel with
  | zero =>
    intro i line col len he tl tc l c h
    exact StrScanResult.noConfusion h
  | succ n ih =>
    intro i line col len he tl tc l c h
    unfold parseStringLoop at h
    repeat' split at h
    all_goals try exact ih _ _ _ _ _ _ _ _ _ h
    all_goals try unfold stringFinish at h
    all_goals try (repeat' split at h)
    all_goals first
      | exact StrScanResult.noConfusion h
      | (injection h with h1 h2 h3
         first
           | exact ⟨h2.symm, h3.symm⟩
           | exact absurd h1 (by decide)
           | exact False.elim
               (stringEscapeStep_raise_ne_unterminated _ _ _ _ _ _ _ _ _ _ _ _ _ (by assumption) h1))

/-- C4: whenever lexer_parse_string raises PARSER_ERR_UNTERMINATED_STRING
(which it does exactly when end-of-input is reached before the closing
terminator, a lone trailing backslash included), the reported token line
and column are the position of the string's opening quote character, not
the position where scanning stopped. -/
theorem C4_unterminated_string_reports_start
    (strict : Bool) (src : List Nat) (startIdx line col l c : Nat)
    (hcol : col < M32)
    (h : lexerParseString strict src startIdx line col = .err .unterminatedString l c) :
    l = line ∧ c = col := by
  simp only [lexerParseString] at h
  have h2 := parseStringLoop_unterminated strict _ line (add32 col 1) src _ _ _ _ _ _ _ _ _ _ h
  exact ⟨h2.1, by rw [h2.2, sub32_add32_one col hcol]⟩

/-- C4, witness: the input `quote a b backslash` ends in a lone backslash
before any closing quote; scanning it from line 3, column 7 raises the
unterminated string error at exactly line 3, column 7. -/
theorem C4_unterminated_string_reports_start_witness :
    (7 : Nat) < M32 ∧
    lexerParseString false [39, 97, 98, 92] 0 3 7 = .err .unterminatedString 3 7 ∧
    ((3 : Nat) = 3 ∧ (7 : Nat) = 7) :=
  ⟨by decide, by decide,
   C4_unterminated_string_reports_start false [39, 97, 98, 92] 0 3 7 3 7 (by decide) (by decide)⟩

theorem skipSpacesLoop_tab (src : List Nat) (fuel : Nat) (mode : SkipMode)
    (i line col : Nat) (wasNl : Bool) (hi : i < src.length) (hb : byteAt src i = 9) :
    lexerSkipSpacesLoop src (fuel + 1) mode i line col wasNl =
    lexerSkipSpacesLoop src fuel mode (i + 1) line (alignColumnToTab col) wasNl := by
  rw [lexerSkipSpacesLoop]
  rw [if_neg (by omega)]
  simp only [hb]
  norm_num

theorem stringCommon_tab (strEnd : Nat) (src : List Nat) (i line col len : Nat) (he : Bool)
    (hb : byteAt src i = 9)
    (hnext : ¬ (i + 1 < src.length ∧ isUtf8Intermediate (byteAt src (i + 1)))) :
    stringCommon strEnd src i line col len he =
      .next (i + 1) line (alignColumnToTab col) (len + 1) he := by
  simp only [stringCommon, hb]
  norm_num
  simp only [stringConsume, skipIntermediate_stop src (i + 1) hnext]
  rw [add32_sub32_one _ (alignColumnToTab_pos col).1 (alignColumnToTab_pos col).2]
  norm_num

theorem regexpScanLoop_tab (src : List Nat) (fuel i col : Nat) (inClass : Bool)
    (hi : i < src.length) (hb : byteAt src i = 9)
    (hnext : ¬ (i + 1 < src.length ∧ isUtf8Intermediate (byteAt src (i + 1)))) :
    regexpScanLoop src (fuel + 1) i col inClass =
    regexpScanLoop src fuel (i + 1) (alignColumnToTab col) inClass := by
  rw [regexpScanLoop]
  rw [if_neg (by omega)]
  simp only [hb]
  norm_num
  rw [skipIntermediate_stop src (i + 1) hnext,
      add32_sub32_one _ (alignColumnToTab_pos col).1 (alignColumnToTab_pos col).2]

/-- C5: align_column_to_tab sends a column to the least multiple-of-8
boundary at or above it, plus one, and consuming a tab in the whitespace
skipper, the string scanner and the regexp scanner sets the column to
exactly that value (the string and regexp scanners subtract the one their
shared consume step adds back). -/
theorem C5_tab_advances_to_boundary :
    (∀ c, c + 8 ≤ M32 →
      alignColumnToTab c = 8 * ((c + 7) / 8) + 1 ∧
      (8 * ((c + 7) / 8)) % 8 = 0 ∧ c ≤ 8 * ((c + 7) / 8) ∧ 8 * ((c + 7) / 8) < c + 8) ∧
    (∀ (src : List Nat) (fuel : Nat) (mode : SkipMode) (i line col : Nat) (wasNl : Bool),
      i < src.length → byteAt src i = 9 →
      lexerSkipSpacesLoop src (fuel + 1) mode i line col wasNl =
      lexerSkipSpacesLoop src fuel mode (i + 1) line (alignColumnToTab col) wasNl) ∧
    (∀ (strEnd : Nat) (src : List Nat) (i line col len : Nat) (he : Bool),
      byteAt src i = 9 →
      ¬ (i + 1 < src.length ∧ isUtf8Intermediate (byteAt src (i + 1))) →
      stringCommon strEnd src i line col len he =
        .next (i + 1) line (alignColumnToTab col) (len + 1) he) ∧
    (∀ (src : List Nat) (fuel i col : Nat) (inClass : Bool),
      i < src.length → byteAt src i = 9 →
      ¬ (i + 1 < src.length ∧ isUtf8Intermediate (byteAt src (i + 1))) →
      regexpScanLoop src (fuel + 1) i col inClass =
      regexpScanLoop src fuel (i + 1) (alignColumnToTab col) inClass) := by
  refine ⟨?_, ?_, ?_, ?_⟩
  · intro c h
    refine ⟨alignColumnToTab_eq c h, ?_, ?_, ?_⟩ <;> omega
  · intro src fuel mode i line col wasNl hi hb
    exact skipSpacesLoop_tab src fuel mode i line col wasNl hi hb
  · intro strEnd src i line col len he hb hnext
    exact stringCommon_tab strEnd src i line col len he hb hnext
  · intro src fuel i col inClass hi hb hnext
    exact regexpScanLoop_tab src fuel i col inClass hi hb hnext

/-- C5, witness: a tab at column 0 yields column 1 and a tab at column 5
yields column 9; the three scanners step accordingly on concrete input. -/
theorem C5_tab_advances_to_boundary_witness :
    alignColumnToTab 0 = 1 ∧ alignColumnToTab 5 = 9 ∧
    lexerSkipSpacesLoop [9, 120] 2 .spaces 0 1 5 false =
      lexerSkipSpacesLoop [9, 120] 1 .spaces 1 1 (alignColumnToTab 5) false ∧
    stringCommon 39 [9, 97] 0 1 5 0 false = .next 1 1 (alignColumnToTab 5) 1 false ∧
    regexpScanLoop [9, 97] 2 0 5 false = regexpScanLoop [9, 97] 1 1 (alignColumnToTab 5) false := by
  obtain ⟨h1, h2, h3, h4⟩ := C5_tab_advances_to_boundary
  exact ⟨(h1 0 (by decide)).1.trans (by decide), (h1 5 (by decide)).1.trans (by decide),
    h2 [9, 120] 1 .spaces 0 1 5 false (by decide) (by decide),
    h3 39 [9, 97] 0 1 5 0 false (by decide) (by decide),
    h4 [9, 97] 1 0 5 false (by decide) (by decide) (by decide)⟩



set_option maxRecDepth 10000 in
theorem d800_or_eq : ∀ y, y < 1024 → 0xd800 ||| y = 0xd800 + y := by decide

set_option maxRecDepth 10000 in
theorem dc00_or_eq : ∀ y, y < 1024 → 0xdc00 ||| y = 0xdc00 + y := by decide

theorem utf8Bytes_len3 (c : Nat) (h : 0x800 ≤ c) : (utf8Bytes c).length = 3 := by
  simp only [utf8Bytes, if_neg (show ¬ c < 0x80 from by omega),
    if_neg (show ¬ c < 0x800 from by omega)]
  rfl

theorem stringCommon_astral (strEnd : Nat) (src : List Nat) (i line col len : Nat) (he : Bool)
    (hb : 0xf0 ≤ byteAt src i) :
    stringCommon strEnd src i line col len he = .next (i + 4) line (add32 col 1) (len + 6) true := by
  simp only [stringCommon]
  rw [if_pos hb]

theorem stringDecodeCommon_astral (src : List Nat) (i : Nat) (hb : 0xf0 ≤ byteAt src i) :
    stringDecodeCommon src i =
      (utf8Bytes (highSurrogate src i) ++ utf8Bytes (lowSurrogate src i), i + 4) := by
  simp only [stringDecodeCommon]
  rw [if_pos hb]
  rfl

theorem namedEscapeChar_high (c : Nat) (h : 0xf0 ≤ c) : namedEscapeChar c = c := by
  unfold namedEscapeChar
  rw [if_neg (by omega), if_neg (by omega), if_neg (by omega), if_neg (by omega),
      if_neg (by omega), if_neg (by omega)]

theorem stringEscapeStep_astral (strict : Bool) (strEnd : Nat) (src : List Nat)
    (i line col len : Nat) (he : Bool) (tl tc : Nat)
    (hi : i + 1 < src.length) (hb : 0xf0 ≤ byteAt src (i + 1)) :
    stringEscapeStep strict strEnd src i line col len he tl tc =
      .recurse (i + 5) line (add32 (add32 col 1) 1) (len + 6) true tl tc := by
  simp only [stringEscapeStep]
  rw [if_neg (by omega), if_neg (by omega), if_neg (by omega),
      if_neg (show ¬ (byteAt src (i + 1) = 0xe2 ∧
        lsPsByte23 (byteAt src (i + 2)) (byteAt src (i + 3))) from fun hc => by omega),
      if_neg (show ¬ (48 ≤ byteAt src (i + 1) ∧ byteAt src (i + 1) ≤ 51) from fun hc => by omega),
      if_neg (show ¬ (52 ≤ byteAt src (i + 1) ∧ byteAt src (i + 1) ≤ 55) from fun hc => by omega),
      if_neg (show ¬ (byteAt src (i + 1) = 120 ∨ byteAt src (i + 1) = 117) from fun hc => by
        rcases hc with hc | hc <;> omega),
      stringCommon_astral strEnd src (i + 1) line (add32 col 1) len true hb]

theorem decodeStringLoop_astral (strEnd : Nat) (src : List Nat) (fuel i : Nat)
    (hs : strEnd < 0xf0) (hb : 0xf0 ≤ byteAt src i) :
    decodeStringLoop strEnd src (fuel + 1) i =
      decodePrepend (utf8Bytes (highSurrogate src i) ++ utf8Bytes (lowSurrogate src i))
        (decodeStringLoop strEnd src fuel (i + 4)) := by
  rw [decodeStringLoop]
  rw [if_neg (by omega), if_neg (by omega),
      if_neg (show ¬ (strEnd = 96 ∧ byteAt src i = 36 ∧ byteAt src (i + 1) = 123) from
        fun hc => by omega),
      stringDecodeCommon_astral src i hb]

theorem decodeStringLoop_astral_escaped (strEnd : Nat) (src : List Nat) (fuel i : Nat)
    (hs92 : strEnd ≠ 92) (hb0 : byteAt src i = 92)
    (hb : 0xf0 ≤ byteAt src (i + 1)) :
    decodeStringLoop strEnd src (fuel + 1) i =
      decodePrepend (utf8Bytes (highSurrogate src (i + 1)) ++ utf8Bytes (lowSurrogate src (i + 1)))
        (decodeStringLoop strEnd src fuel (i + 5)) := by
  rw [decodeStringLoop]
  rw [if_neg (show ¬ byteAt src i = strEnd from by omega), if_pos hb0,
      if_neg (by omega), if_neg (by omega),
      if_neg (show ¬ (byteAt src (i + 1) = 0xe2 ∧
        lsPsByte23 (byteAt src (i + 2)) (byteAt src (i + 3))) from fun hc => by omega),
      if_neg (show ¬ (48 ≤ byteAt src (i + 1) ∧ byteAt src (i + 1) ≤ 51) from fun hc => by omega),
      if_neg (show ¬ (52 ≤ byteAt src (i + 1) ∧ byteAt src (i + 1) ≤ 55) from fun hc => by omega),
      if_neg (show ¬ (byteAt src (i + 1) = 120 ∨ byteAt src (i + 1) = 117) from fun hc => by
        rcases hc with hc | hc <;> omega),
      if_neg (show ¬ namedEscapeChar (byteAt src (i + 1)) ≠ byteAt src (i + 1) from by
        rw [namedEscapeChar_high _ hb]; exact fun hc => hc rfl),
      stringDecodeCommon_astral src (i + 1) hb]

theorem parseStringLoop_astral (strict : Bool) (strEnd origLine origCol : Nat) (src : List Nat)
    (fuel i line col len : Nat) (he : Bool) (tl tc : Nat)
    (hi : i < src.length) (hs : strEnd < 0xf0) (hb : 0xf0 ≤ byteAt src i) :
    parseStringLoop strict strEnd origLine origCol src (fuel + 1) i line col len he tl tc =
    parseStringLoop strict strEnd origLine origCol src fuel (i + 4) line (add32 col 1) (len + 6) true tl tc := by
  rw [parseStringLoop]
  rw [if_neg (by omega), if_neg (by omega), if_neg (by omega),
      stringCommon_astral strEnd src i line col len he hb]

theorem parseStringLoop_astral_escaped (strict : Bool) (strEnd origLine origCol : Nat)
    (src : List Nat) (fuel i line col len : Nat) (he : Bool) (tl tc : Nat)
    (hi2 : i + 1 < src.length) (hs92 : strEnd ≠ 92)
    (hb0 : byteAt src i = 92) (hb : 0xf0 ≤ byteAt src (i + 1)) :
    parseStringLoop strict strEnd origLine origCol src (fuel + 1) i line col len he tl tc =
    parseStringLoop strict strEnd origLine origCol src fuel (i + 5) line
      (add32 (add32 col 1) 1) (len + 6) true tl tc := by
  rw [parseStringLoop]
  rw [if_neg (by omega), if_neg (show ¬ byteAt src i = strEnd from by omega), if_pos hb0,
      stringEscapeStep_astral strict strEnd src i line col len he tl tc hi2 hb]

/-- C7: every 4-byte UTF-8 sequence (lead byte >= 0xf0, astral codepoint C)
inside a string or template literal, whether or not it follows a backslash, is
re-encoded by the decoder as exactly the two UTF-8 encodings of the surrogate
code units 0xD800 ||| ((C - 0x10000) >>> 10) and 0xDC00 ||| ((C - 0x10000) &&& 0x3FF)
(each 3 bytes long, in the high/low surrogate ranges), and the scanner accounts
6 bytes of decoded length for it. -/
theorem C7_astral_surrogate_pair :
    (∀ (src : List Nat) (i : Nat), 0xf0 ≤ byteAt src i →
      stringDecodeCommon src i =
        (utf8Bytes (highSurrogate src i) ++ utf8Bytes (lowSurrogate src i), i + 4) ∧
      (0x10000 ≤ astralChar src i → astralChar src i ≤ 0x10ffff →
        (utf8Bytes (highSurrogate src i)).length = 3 ∧
        (utf8Bytes (lowSurrogate src i)).length = 3 ∧
        0xd800 ≤ highSurrogate src i ∧ highSurrogate src i ≤ 0xdbff ∧
        0xdc00 ≤ lowSurrogate src i ∧ lowSurrogate src i ≤ 0xdfff)) ∧
    (∀ (strEnd : Nat) (src : List Nat) (fuel i : Nat), strEnd < 0xf0 → 0xf0 ≤ byteAt src i →
      decodeStringLoop strEnd src (fuel + 1) i =
        decodePrepend (utf8Bytes (highSurrogate src i) ++ utf8Bytes (lowSurrogate src i))
          (decodeStringLoop strEnd src fuel (i + 4))) ∧
    (∀ (strEnd : Nat) (src : List Nat) (fuel i : Nat), strEnd ≠ 92 → byteAt src i = 92 →
      0xf0 ≤ byteAt src (i + 1) →
      decodeStringLoop strEnd src (fuel + 1) i =
        decodePrepend (utf8Bytes (highSurrogate src (i + 1)) ++ utf8Bytes (lowSurrogate src (i + 1)))
          (decodeStringLoop strEnd src fuel (i + 5))) ∧
    (∀ (strict : Bool) (strEnd origLine origCol : Nat) (src : List Nat)
      (fuel i line col len : Nat) (he : Bool) (tl tc : Nat),
      i < src.length → strEnd < 0xf0 → 0xf0 ≤ byteAt src i →
      parseStringLoop strict strEnd origLine origCol src (fuel + 1) i line col len he tl tc =
      parseStringLoop strict strEnd origLine origCol src fuel (i + 4) line (add32 col 1) (len + 6) true tl tc) ∧
    (∀ (strict : Bool) (strEnd origLine origCol : Nat) (src : List Nat)
      (fuel i line col len : Nat) (he : Bool) (tl tc : Nat),
      i + 1 < src.length → strEnd ≠ 92 → byteAt src i = 92 → 0xf0 ≤ byteAt src (i + 1) →
      parseStringLoop strict strEnd origLine origCol src (fuel + 1) i line col len he tl tc =
      parseStringLoop strict strEnd origLine origCol src fuel (i + 5) line
        (add32 (add32 col 1) 1) (len + 6) true tl tc) := by
  refine ⟨?_, ?_, ?_, ?_, ?_⟩
  · intro src i hb
    refine ⟨stringDecodeCommon_astral src i hb, ?_⟩
    intro hlo hhi
    have hx : astralChar src i - 0x10000 < 2 ^ 20 := by omega
    have hsh : (astralChar src i - 0x10000) >>> 10 < 1024 := by
      rw [Nat.shiftRight_eq_div_pow]
      omega
    have hand : (astralChar src i - 0x10000) &&& 0x3ff < 1024 :=
      Nat.lt_succ_of_le Nat.and_le_right
    have hhigh : highSurrogate src i = 0xd800 + (astralChar src i - 0x10000) >>> 10 := by
      unfold highSurrogate
      exact d800_or_eq _ hsh
    have hlow : lowSurrogate src i = 0xdc00 + ((astralChar src i - 0x10000) &&& 0x3ff) := by
      unfold lowSurrogate
      exact dc00_or_eq _ hand
    refine ⟨utf8Bytes_len3 _ (by omega), utf8Bytes_len3 _ (by omega), by omega, by omega, by omega, by omega⟩
  · intro strEnd src fuel i hs hb
    exact decodeStringLoop_astral strEnd src fuel i hs hb
  · intro strEnd src fuel i hs92 hb0 hb
    exact decodeStringLoop_astral_escaped strEnd src fuel i hs92 hb0 hb
  · intro strict strEnd origLine origCol src fuel i line col len he tl tc hi hs hb
    exact parseStringLoop_astral strict strEnd origLine origCol src fuel i line col len he tl tc hi hs hb
  · intro strict strEnd origLine origCol src fuel i line col len he tl tc hi2 hs92 hb0 hb
    exact parseStringLoop_astral_escaped strict strEnd origLine origCol src fuel i line col len he tl tc hi2 hs92 hb0 hb

/-- C7, witness: the 4-byte sequence for U+1F600 decodes to the surrogate pair
encodings [237, 160, 189] (0xD83D) and [237, 184, 128] (0xDE00), and the string
scanner adds 6 to the decoded length while consuming the 4 bytes. -/
theorem C7_astral_surrogate_pair_witness :
    stringDecodeCommon [240, 159, 152, 128] 0 =
      (utf8Bytes (highSurrogate [240, 159, 152, 128] 0) ++
        utf8Bytes (lowSurrogate [240, 159, 152, 128] 0), 4) ∧
    utf8Bytes (highSurrogate [240, 159, 152, 128] 0) = [237, 160, 189] ∧
    utf8Bytes (lowSurrogate [240, 159, 152, 128] 0) = [237, 184, 128] ∧
    parseStringLoop false 39 1 1 [240, 159, 152, 128, 39] 2 0 1 1 0 false 1 1 =
      parseStringLoop false 39 1 1 [240, 159, 152, 128, 39] 1 4 1 (add32 1 1) 6 true 1 1 :=
  ⟨(C7_astral_surrogate_pair.1 [240, 159, 152, 128] 0 (by decide)).1,
   by decide, by decide,
   C7_astral_surrogate_pair.2.2.2.1 false 39 1 1 [240, 159, 152, 128, 39] 1 0 1 1 0 false 1 1
     (by decide) (by decide) (by decide)⟩


/-- C6: an identifier whose raw span contains a backslash-u escape is never
reclassified as a keyword: the token stays LEXER_LITERAL and is not marked
reserved; conversely any token that left LEXER_LITERAL or was marked reserved
came from the keyword binary search, which runs only when keywords are being
checked, the identifier is escape-free, and its decoded length is between 2
and 10 inclusive. -/
theorem C6_escaped_never_keyword :
    (∀ (u : UtilFns) (strict checkKeywords : Bool) (src : List Nat) (startIdx col : Nat)
      (tok : IdentToken),
      lexerParseIdentifier u strict checkKeywords src startIdx col = .ok tok →
      tok.hasEscape = true →
      tok.tokType = .literal ∧ tok.literalIsReserved = false) ∧
    (∀ (u : UtilFns) (strict checkKeywords : Bool) (src : List Nat) (startIdx col : Nat)
      (tok : IdentToken),
      lexerParseIdentifier u strict checkKeywords src startIdx col = .ok tok →
      (tok.tokType ≠ .literal ∨ tok.literalIsReserved = true) →
      checkKeywords = true ∧ tok.hasEscape = false ∧
        2 ≤ tok.scanLength ∧ tok.scanLength ≤ 10) := by
  constructor
  · intro u strict checkKeywords src startIdx col tok h he
    unfold lexerParseIdentifier at h
    cases hloop : parseIdentifierLoop u src (src.length - startIdx + 2) startIdx 0 col false with
    | fuelOut => rw [hloop] at h; exact ParseIdentResult.noConfusion h
    | err e => rw [hloop] at h; exact ParseIdentResult.noConfusion h
    | ok i len endCol hasEscape =>
      rw [hloop] at h
      simp only [] at h
      by_cases hlen : len > PARSER_MAXIMUM_IDENT_LENGTH
      · rw [if_pos hlen] at h
        exact ParseIdentResult.noConfusion h
      · rw [if_neg hlen] at h
        by_cases hg : checkKeywords = true ∧ hasEscape = false ∧ 2 ≤ len ∧ len ≤ 10
        · rw [if_pos hg] at h
          cases hk : keywordLookup (keywordStringsList (len - 2)) ((src.drop startIdx).take len) len with
          | foundKeyword name =>
            rw [hk] at h
            injection h with h1
            subst h1
            have he2 : hasEscape = true := he
            rw [hg.2.1] at he2
            exact Bool.noConfusion he2
          | foundFutureReserved =>
            rw [hk] at h
            cases strict with
            | true => exact ParseIdentResult.noConfusion h
            | false =>
              injection h with h1
              subst h1
              have he2 : hasEscape = true := he
              rw [hg.2.1] at he2
              exact Bool.noConfusion he2
          | noMatch =>
            rw [hk] at h
            injection h with h1
            subst h1
            exact ⟨rfl, rfl⟩
        · rw [if_neg hg] at h
          injection h with h1
          subst h1
          exact ⟨rfl, rfl⟩
  · intro u strict checkKeywords src startIdx col tok h hne
    unfold lexerParseIdentifier at h
    cases hloop : parseIdentifierLoop u src (src.length - startIdx + 2) startIdx 0 col false with
    | fuelOut => rw [hloop] at h; exact ParseIdentResult.noConfusion h
    | err e => rw [hloop] at h; exact ParseIdentResult.noConfusion h
    | ok i len endCol hasEscape =>
      rw [hloop] at h
      simp only [] at h
      by_cases hlen : len > PARSER_MAXIMUM_IDENT_LENGTH
      · rw [if_pos hlen] at h
        exact ParseIdentResult.noConfusion h
      · rw [if_neg hlen] at h
        by_cases hg : checkKeywords = true ∧ hasEscape = false ∧ 2 ≤ len ∧ len ≤ 10
        · rw [if_pos hg] at h
          cases hk : keywordLookup (keywordStringsList (len - 2)) ((src.drop startIdx).take len) len with
          | foundKeyword name =>
            rw [hk] at h
            injection h with h1
            subst h1
            exact ⟨hg.1, hg.2.1, hg.2.2.1, hg.2.2.2⟩
          | foundFutureReserved =>
            rw [hk] at h
            cases strict with
            | true => exact ParseIdentResult.noConfusion h
            | false =>
              injection h with h1
              subst h1
              exact ⟨hg.1, hg.2.1, hg.2.2.1, hg.2.2.2⟩
          | noMatch =>
            rw [hk] at h
            injection h with h1
            subst h1
            rcases hne with hne | hne
            · exact absurd rfl hne
            · exact Bool.noConfusion (show false = true from hne)
        · rw [if_neg hg] at h
          injection h with h1
          subst h1
          rcases hne with hne | hne
          · exact absurd rfl hne
          · exact Bool.noConfusion (show false = true from hne)

/-- C6, witness: the escaped spelling backslash-u0076-a-r of the keyword var
stays a literal token with has_escape set, while the raw spelling var becomes
a keyword token found by a search that ran under the guard. -/
theorem C6_escaped_never_keyword_witness :
    ((⟨TokenType.literal, false, true, 3, some (0, 3), 8, 9⟩ : IdentToken).tokType =
        TokenType.literal ∧
      (⟨TokenType.literal, false, true, 3, some (0, 3), 8, 9⟩ : IdentToken).literalIsReserved =
        false) ∧
    (true = true ∧
      (⟨TokenType.keyword ("var"), false, false, 3, none, 3, 4⟩ : IdentToken).hasEscape = false ∧
      2 ≤ (⟨TokenType.keyword ("var"), false, false, 3, none, 3, 4⟩ : IdentToken).scanLength ∧
      (⟨TokenType.keyword ("var"), false, false, 3, none, 3, 4⟩ : IdentToken).scanLength ≤ 10) :=
  ⟨C6_escaped_never_keyword.1 asciiUtilFns false true [92, 117, 48, 48, 55, 54, 97, 114] 0 1
      ⟨TokenType.literal, false, true, 3, some (0, 3), 8, 9⟩ (by decide) (by decide),
   C6_escaped_never_keyword.2 asciiUtilFns false true [118, 97, 114] 0 1
      ⟨TokenType.keyword ("var"), false, false, 3, none, 3, 4⟩ (by decide)
      (Or.inl (by decide))⟩



theorem compareRawIdentifier_escape_false (src : List Nat) (loc : LitLocation)
    (rightIdent : List Nat) (he : loc.hasEscape = true) :
    lexerCompareRawIdentifierToCurrent src loc rightIdent = false := by
  unfold lexerCompareRawIdentifierToCurrent
  rw [if_pos (Or.inr he)]

/-- C10: lexer_compare_raw_identifier_to_current returns zero whenever the
current literal has has_escape set, regardless of content; consequently
lexer_scan_identifier never reclassifies an escape-bearing spelling into the
property getter / setter token types: a token whose lit_location carries
has_escape always keeps type LEXER_LITERAL. -/
theorem C10_raw_compare_rejects_escapes :
    (∀ (src : List Nat) (loc : LitLocation) (rightIdent : List Nat),
      loc.hasEscape = true →
      lexerCompareRawIdentifierToCurrent src loc rightIdent = false) ∧
    (∀ (u : UtilFns) (strict : Bool) (src : List Nat) (i line col : Nat)
      (flags : LexerFlags) (propertyName : Bool) (tok : ScanToken)
      (endIdx endCol : Nat) (wn : Bool),
      lexerScanIdentifier u strict src i line col flags propertyName =
        .ok tok endIdx endCol wn →
      tok.loc.hasEscape = true →
      tok.tokType = .literal) := by
  constructor
  · exact compareRawIdentifier_escape_false
  · intro u strict src i line col flags propertyName tok endIdx endCol wn h he
    unfold lexerScanIdentifier at h
    cases hs1 : lexerSkipSpaces src i line col flags with
    | fuelOut => rw [hs1] at h; exact ScanIdentResult.noConfusion h
    | errUnterminatedComment => rw [hs1] at h; exact ScanIdentResult.noConfusion h
    | done st =>
      rw [hs1] at h
      simp only [] at h
      by_cases hc1 : st.i < src.length ∧ (u.isIdentStart src st.i = true ∨ byteAt src st.i = 92)
      · rw [if_pos hc1] at h
        cases hp : lexerParseIdentifier u strict false src st.i st.col with
        | fuelOut => rw [hp] at h; exact ScanIdentResult.noConfusion h
        | err e => rw [hp] at h; exact ScanIdentResult.noConfusion h
        | ok tok0 =>
          rw [hp] at h
          simp only [] at h
          by_cases hc2 : propertyName = true ∧ tok0.scanLength = 3
          · rw [if_pos hc2] at h
            cases hs2 : lexerSkipSpaces src tok0.endIdx st.line tok0.endCol ⟨st.wasNewline, false⟩ with
            | fuelOut => rw [hs2] at h; exact ScanIdentResult.noConfusion h
            | errUnterminatedComment => rw [hs2] at h; exact ScanIdentResult.noConfusion h
            | done st2 =>
              rw [hs2] at h
              simp only [] at h
              by_cases hc3 : st2.i < src.length ∧ byteAt src st2.i ≠ 58
              · rw [if_pos hc3] at h
                by_cases hg : lexerCompareRawIdentifierToCurrent src
                    ⟨st.i, tok0.scanLength, tok0.hasEscape⟩ (kwBytes ("get")) = true
                · rw [if_pos hg] at h
                  injection h with h1 h2 h3 h4
                  subst h1
                  have he2 : tok0.hasEscape = true := he
                  rw [compareRawIdentifier_escape_false src _ _ he2] at hg
                  exact Bool.noConfusion hg
                · rw [if_neg hg] at h
                  by_cases hg2 : lexerCompareRawIdentifierToCurrent src
                      ⟨st.i, tok0.scanLength, tok0.hasEscape⟩ (kwBytes ("set")) = true
                  · rw [if_pos hg2] at h
                    injection h with h1 h2 h3 h4
                    subst h1
                    have he2 : tok0.hasEscape = true := he
                    rw [compareRawIdentifier_escape_false src _ _ he2] at hg2
                    exact Bool.noConfusion hg2
                  · rw [if_neg hg2] at h
                    injection h with h1 h2 h3 h4
                    subst h1
                    rfl
              · rw [if_neg hc3] at h
                injection h with h1 h2 h3 h4
                subst h1
                rfl
          · rw [if_neg hc2] at h
            injection h with h1 h2 h3 h4
            subst h1
            rfl
      · rw [if_neg hc1] at h
        by_cases hpn : propertyName = true
        · rw [if_pos hpn] at h
          exact ScanIdentResult.noConfusion h
        · rw [if_neg hpn] at h
          exact ScanIdentResult.noConfusion h

/-- C10, witness: the escaped spelling backslash-u0067-e-t of get compares
unequal to the raw bytes of get, and scanning it as a property name yields a
plain literal token, not a property getter. -/
theorem C10_raw_compare_rejects_escapes_witness :
    lexerCompareRawIdentifierToCurrent [92, 117, 48, 48, 54, 55, 101, 116]
      ⟨0, 3, true⟩ (kwBytes ("get")) = false ∧
    (⟨TokenType.literal, 1, 1, ⟨0, 3, true⟩⟩ : ScanToken).tokType = TokenType.literal :=
  ⟨C10_raw_compare_rejects_escapes.1 [92, 117, 48, 48, 54, 55, 101, 116]
      ⟨0, 3, true⟩ (kwBytes ("get")) rfl,
   C10_raw_compare_rejects_escapes.2 asciiUtilFns false
      [92, 117, 48, 48, 54, 55, 101, 116, 32, 120] 0 1 1 ⟨false, false⟩ true
      ⟨TokenType.literal, 1, 1, ⟨0, 3, true⟩⟩ 9 10 false (by decide) rfl⟩


/-- C2: counterexample.  The two escaped spellings backslash-u0041 at
offsets 0 and 7 of the source buffer decode to the same single character A
(decoded length 1 on both sides), yet lexer_compare_identifier_to_current
does not report them equal: its both-sides-escaped branch ADDS the decoded
UTF-8 length to count instead of subtracting it, so count stays positive
after the only character and the loop reads past the end of the right
buffer (undefined behaviour, reified as oobRead). -/
theorem C2_compare_identifier_bug :
    lexerDecodeUnicodeSequence c2SourceBuffer 0 = 65 ∧
    lexerDecodeUnicodeSequence (c2SourceBuffer.drop 7) 0 = 65 ∧
    utf8Length 65 = 1 ∧
    lexerCompareIdentifierToCurrent 20 c2SourceBuffer (c2SourceBuffer.drop 7) 1 1 true true =
      CmpResult.oobRead ∧
    CmpResult.oobRead ≠ CmpResult.eq := by
  decide


theorem literalSearchLoop_none (t : LitType) (len : Nat) (chars : List Nat) :
    ∀ (pool : List LexerLiteral) (start : Nat),
      (∀ lit ∈ pool, ¬ litEntryMatches t len chars lit) →
      literalSearchLoop t len chars pool start = none := by
  intro pool
  induction pool with
  | nil => intro start h; rfl
  | cons lit rest ih =>
    intro start h
    unfold literalSearchLoop
    split
    · rename_i hc
      exact absurd (show litEntryMatches t len chars lit from hc)
        (h lit (List.mem_cons_self lit rest))
    · exact ih (start + 1) (fun l hl => h l (List.mem_cons_of_mem lit hl))

theorem literalSearchLoop_first (t : LitType) (len : Nat) (chars : List Nat) :
    ∀ (pool : List LexerLiteral) (start k : Nat),
      k < pool.length →
      litEntryMatches t len chars (pool.getD k defaultLiteral) →
      (∀ j, j < k → ¬ litEntryMatches t len chars (pool.getD j defaultLiteral)) →
      literalSearchLoop t len chars pool start = some (start + k) := by
  intro pool
  induction pool with
  | nil =>
    intro start k hk hm hprev
    exact absurd hk (by simp)
  | cons lit rest ih =>
    intro start k hk hm hprev
    unfold literalSearchLoop
    split
    · rename_i hc
      cases k with
      | zero => rfl
      | succ n =>
        exact absurd (show litEntryMatches t len chars ((lit :: rest).getD 0 defaultLiteral)
          from hc) (hprev 0 (by omega))
    · rename_i hc
      cases k with
      | zero =>
        exact absurd (show litEntryMatches t len chars lit from hm) hc
      | succ n =>
        have hres := ih (start + 1) n
          (by simp only [List.length_cons] at hk; omega)
          (by simpa using hm)
          (fun j hj => by
            have hp := hprev (j + 1) (by omega)
            simpa using hp)
        rw [hres]
        congr 1
        omega

/-- C3: lexer_process_char_literal, given decoded bytes, length and type:
when the first pool entry matching in type, length and content sits at
index k, it returns index k with that entry's LEXER_FLAG_UNUSED_IDENT flag
cleared and the literal count unchanged; when no entry matches and the
pool is at PARSER_MAXIMUM_NUMBER_OF_LITERALS it raises
PARSER_ERR_LITERAL_LIMIT_REACHED, and below the limit it appends a new
entry whose index is the previous count, growing the count by one. -/
theorem C3_literal_pool_interning :
    (∀ (pool : List LexerLiteral) (chars : List Nat) (len : Nat) (litType : LitType)
      (he : Bool) (k : Nat),
      k < pool.length →
      litEntryMatches litType len chars (pool.getD k defaultLiteral) →
      (∀ j, j < k → ¬ litEntryMatches litType len chars (pool.getD j defaultLiteral)) →
      lexerProcessCharLiteral pool chars len litType he =
        .ok (pool.set k (clearUnusedIdentFlag (pool.getD k defaultLiteral)), k) ∧
      (pool.set k (clearUnusedIdentFlag (pool.getD k defaultLiteral))).length = pool.length) ∧
    (∀ (pool : List LexerLiteral) (chars : List Nat) (len : Nat) (litType : LitType) (he : Bool),
      (∀ lit ∈ pool, ¬ litEntryMatches litType len chars lit) →
      pool.length ≥ PARSER_MAXIMUM_NUMBER_OF_LITERALS →
      lexerProcessCharLiteral pool chars len litType he = .error .literalLimitReached) ∧
    (∀ (pool : List LexerLiteral) (chars : List Nat) (len : Nat) (litType : LitType) (he : Bool),
      (∀ lit ∈ pool, ¬ litEntryMatches litType len chars lit) →
      pool.length < PARSER_MAXIMUM_NUMBER_OF_LITERALS →
      lexerProcessCharLiteral pool chars len litType he =
        .ok (pool ++ [⟨litType, len, chars.take len,
          if (if len = 0 then false else he) then 0 else LEXER_FLAG_SOURCE_PTR⟩], pool.length) ∧
      (pool ++ [(⟨litType, len, chars.take len,
        if (if len = 0 then false else he) then 0 else LEXER_FLAG_SOURCE_PTR⟩ :
          LexerLiteral)]).length = pool.length + 1) := by
  refine ⟨?_, ?_, ?_⟩
  · intro pool chars len litType he k hk hm hprev
    have hs := literalSearchLoop_first litType len chars pool 0 k hk hm hprev
    rw [Nat.zero_add] at hs
    unfold lexerProcessCharLiteral
    rw [hs]
    exact ⟨rfl, by simp⟩
  · intro pool chars len litType he hnone hcap
    unfold lexerProcessCharLiteral
    rw [literalSearchLoop_none litType len chars pool 0 hnone]
    simp only []
    rw [if_pos hcap]
  · intro pool chars len litType he hnone hcap
    unfold lexerProcessCharLiteral
    rw [literalSearchLoop_none litType len chars pool 0 hnone]
    simp only []
    rw [if_neg (by omega)]
    exact ⟨rfl, by simp⟩

/-- C3, witness: interning the byte A against a pool holding it returns
index 0 with the unused-ident flag cleared and the count unchanged;
against a full pool of 32767 entries it fails with the literal-limit
error; against an empty pool it appends the new entry at index 0. -/
theorem C3_literal_pool_interning_witness :
    (lexerProcessCharLiteral [⟨LitType.identL, 1, [65], 2⟩] [65] 1 LitType.identL false =
        Except.ok ([⟨LitType.identL, 1, [65], 0⟩], 0) ∧
      ([(⟨LitType.identL, 1, [65], 2⟩ : LexerLiteral)].set 0
        (clearUnusedIdentFlag ([(⟨LitType.identL, 1, [65], 2⟩ : LexerLiteral)].getD 0
          defaultLiteral))).length = 1) ∧
    lexerProcessCharLiteral (List.replicate 32767 defaultLiteral) [65] 1 LitType.identL false =
      Except.error ParserError.literalLimitReached ∧
    lexerProcessCharLiteral [] [65] 1 LitType.identL true =
      Except.ok ([⟨LitType.identL, 1, [65], 0⟩], 0) := by
  have h1 := C3_literal_pool_interning.1 [⟨LitType.identL, 1, [65], 2⟩] [65] 1 LitType.identL false 0
    (by decide) (by decide) (fun j hj => absurd hj (by omega))
  have h2 := C3_literal_pool_interning.2.1 (List.replicate 32767 defaultLiteral) [65] 1 LitType.identL false
    (fun lit hl => by rw [List.eq_of_mem_replicate hl]; decide)
    (by rw [List.length_replicate]; exact Nat.le_refl 32767)
  have h3 := C3_literal_pool_interning.2.2 [] [65] 1 LitType.identL true
    (fun lit hl => absurd hl (List.not_mem_nil lit))
    (by decide)
  exact ⟨⟨h1.1, h1.2⟩, h2, h3.1⟩



/-- C8: a pool entry appended by lexer_process_char_literal with length 0
always carries LEXER_FLAG_SOURCE_PTR: the function forces has_escape to 0
whenever the length is 0, so even an escaped scan (for example a string
holding only a line continuation) yields the source-pointer-backed entry,
independently of the has_escape argument. -/
theorem C8_zero_length_entry_source_ptr :
    (∀ (pool : List LexerLiteral) (chars : List Nat) (litType : LitType) (he : Bool),
      (∀ lit ∈ pool, ¬ litEntryMatches litType 0 chars lit) →
      pool.length < PARSER_MAXIMUM_NUMBER_OF_LITERALS →
      lexerProcessCharLiteral pool chars 0 litType he =
        .ok (pool ++ [⟨litType, 0, [], LEXER_FLAG_SOURCE_PTR⟩], pool.length)) ∧
    (⟨LitType.stringL, 0, [], LEXER_FLAG_SOURCE_PTR⟩ : LexerLiteral).statusFlags &&&
      LEXER_FLAG_SOURCE_PTR ≠ 0 := by
  constructor
  · intro pool chars litType he hnone hcap
    unfold lexerProcessCharLiteral
    rw [literalSearchLoop_none litType 0 chars pool 0 hnone]
    simp only []
    rw [if_neg (by omega)]
    rfl
  · decide

/-- C8, witness: a zero-length string literal scanned with has_escape set
still interns as a source-pointer-backed entry with no decoded buffer. -/
theorem C8_zero_length_entry_source_ptr_witness :
    lexerProcessCharLiteral [] [] 0 LitType.stringL true =
      Except.ok ([⟨LitType.stringL, 0, [], LEXER_FLAG_SOURCE_PTR⟩], 0) :=
  C8_zero_length_entry_source_ptr.1 [] [] LitType.stringL true
    (fun lit hl => absurd hl (List.not_mem_nil lit)) (by decide)


/-- C9: lexer_construct_number_object takes the small-number fast path
(returning PARSER_TRUE with the decoded value as index and the pool
untouched) exactly when is_expr is set, the decoded integer is at most
CBC_PUSH_NUMBER_BYTE_RANGE_END, and the value is not a negative zero; a
negative zero always appends a full numeric pool entry. -/
theorem C9_small_number_fast_path :
    (∀ (pool : List LexerLiteral) (litLength : Nat) (number : Int) (isExpr isNeg : Bool),
      (∃ idx, lexerConstructNumberObject pool litLength number isExpr isNeg =
        Except.ok (true, idx, pool)) ↔
      (isExpr = true ∧ number ≤ (CBC_PUSH_NUMBER_BYTE_RANGE_END : Int) ∧
        (number ≠ 0 ∨ isNeg = false))) ∧
    (∀ (pool : List LexerLiteral) (litLength : Nat) (number : Int) (isExpr isNeg : Bool),
      isExpr = true → number ≤ (CBC_PUSH_NUMBER_BYTE_RANGE_END : Int) →
      (number ≠ 0 ∨ isNeg = false) →
      lexerConstructNumberObject pool litLength number isExpr isNeg =
        Except.ok (true, (number.emod 65536).toNat, pool)) ∧
    (∀ (pool : List LexerLiteral) (litLength : Nat) (isExpr : Bool),
      pool.length < PARSER_MAXIMUM_NUMBER_OF_LITERALS →
      lexerConstructNumberObject pool litLength 0 isExpr true =
        Except.ok (false, pool.length, pool ++ [⟨LitType.numberL, litLength, [], 0⟩])) := by
  refine ⟨?_, ?_, ?_⟩
  · intro pool litLength number isExpr isNeg
    constructor
    · rintro ⟨idx, hx⟩
      by_cases hc : isExpr = true ∧ number ≤ (CBC_PUSH_NUMBER_BYTE_RANGE_END : Int) ∧
          (number ≠ 0 ∨ isNeg = false)
      · exact hc
      · exfalso
        unfold lexerConstructNumberObject at hx
        rw [if_neg hc] at hx
        by_cases hcap : pool.length ≥ PARSER_MAXIMUM_NUMBER_OF_LITERALS
        · rw [if_pos hcap] at hx
          exact Except.noConfusion hx
        · rw [if_neg hcap] at hx
          injection hx with h1
          injection h1 with h2 h3
          exact Bool.noConfusion h2
    · intro hc
      refine ⟨(number.emod 65536).toNat, ?_⟩
      unfold lexerConstructNumberObject
      rw [if_pos hc]
  · intro pool litLength number isExpr isNeg h1 h2 h3
    unfold lexerConstructNumberObject
    rw [if_pos ⟨h1, h2, h3⟩]
  · intro pool litLength isExpr hcap
    unfold lexerConstructNumberObject
    rw [if_neg (show ¬ (isExpr = true ∧ (0 : Int) ≤ (CBC_PUSH_NUMBER_BYTE_RANGE_END : Int) ∧
        ((0 : Int) ≠ 0 ∨ true = false)) from fun hc => by
      rcases hc.2.2 with h | h
      · exact absurd rfl h
      · exact Bool.noConfusion h)]
    rw [if_neg (by omega)]

/-- C9, witness: the number 5 in expression position takes the fast path
with index 5 and an untouched pool, while negative zero appends a numeric
entry at index 0. -/
theorem C9_small_number_fast_path_witness :
    lexerConstructNumberObject [] 3 5 true false = Except.ok (true, 5, []) ∧
    (∃ idx, lexerConstructNumberObject [] 3 5 true false = Except.ok (true, idx, [])) ∧
    lexerConstructNumberObject [] 2 0 true true =
      Except.ok (false, 0, [⟨LitType.numberL, 2, [], 0⟩]) :=
  ⟨C9_small_number_fast_path.2.1 [] 3 5 true false rfl (by decide) (Or.inl (by decide)),
   (C9_small_number_fast_path.1 [] 3 5 true false).mpr ⟨rfl, by decide, Or.inl (by decide)⟩,
   C9_small_number_fast_path.2.2 [] 2 true (by decide)⟩


end JerryLexer
